import Mathlib

/-!
Verification of the pcp-sdn controller (a PCP server on an OpenFlow
substrate) against its specification.

The development shallowly embeds the relevant Python modules:

* pcp_sdn/pcp/pcpmessage.py  - the PCP wire codec (parser and serializer),
* pcp_sdn/nat/nattable.py    - the NAT mapping table and its allocator,
* pcp_sdn/nat/natinstaller.py and nat/nathandler.py - flow-entry
  programming of the forwarder,
* pcp_sdn/pcp/pcpserver.py   - the request-processing logic,
* pcp_sdn/dphelper.py        - the FlowTableHelper pipeline bookkeeping,
* sdn_controller.py          - the flow-removed event handler.

Machine integers are modelled as Nat with explicit bounds where the
Python code packs them (struct.pack range checks become well-formedness
hypotheses).  Byte strings are modelled as List Nat.  Python dicts are
modelled as association lists with insert-or-replace update, which
matches dict semantics as long as lookups, updates and deletions are the
only operations used, as they are here.  Fallible Python operations
(IndexError, KeyError, struct.error, ValueError, netaddr errors) are
modelled in an Except monad so that raising is observable.
-/

/-! ## Byte-string helpers

The codec stores IP addresses as netaddr presentation strings, which are
in bijection with 128-bit numeric values (IPv4 addresses travel as
IPv4-mapped IPv6 values, and netaddr prints a canonical presentation for
every value).  The codec model therefore represents an address by its
numeric value.  Mirrors packed_str_to_int and the netaddr conversions in
pcpmessage.py.
-/

/-- Model of packed_str_to_int in pcpmessage.py: big-endian byte fold. -/
def packed_str_to_int (bytes : List Nat) : Nat :=
  bytes.foldl (fun acc b => acc * 256 + b) 0

/-- Big-endian encoding of a number into a fixed count of bytes.  This is
what struct.pack produces for the B, H and L formats and what
netaddr.IPAddress.packed produces for a 128-bit value. -/
def natToBytesBE : Nat → Nat → List Nat
  | 0, _ => []
  | k + 1, n => natToBytesBE k (n / 256) ++ [n % 256]

/-- Model of packed_str_to_ip_addr in pcpmessage.py, on numeric values. -/
def packed_str_to_ip_addr (bytes : List Nat) : Nat :=
  packed_str_to_int bytes

/-- Model of ip_addr_to_packed_str in pcpmessage.py, on numeric values. -/
def ip_addr_to_packed_str (ip : Nat) : List Nat :=
  natToBytesBE 16 ip

theorem length_natToBytesBE (k n : Nat) : (natToBytesBE k n).length = k := by
  induction k generalizing n with
  | zero => rfl
  | succ k ih => simp [natToBytesBE, ih]

theorem packed_str_to_int_append (l1 l2 : List Nat) :
    packed_str_to_int (l1 ++ l2) =
      packed_str_to_int l1 * 256 ^ l2.length + packed_str_to_int l2 := by
  induction l2 generalizing l1 with
  | nil => simp [packed_str_to_int]
  | cons b t ih =>
      have h1 : l1 ++ b :: t = (l1 ++ [b]) ++ t := by simp
      have h2 : packed_str_to_int (l1 ++ [b]) = packed_str_to_int l1 * 256 + b := by
        simp [packed_str_to_int, List.foldl_append]
      rw [h1, ih, h2]
      have h3 : packed_str_to_int (b :: t) =
          packed_str_to_int [b] * 256 ^ t.length + packed_str_to_int t := by
        have := ih [b]
        simpa using this
      have h4 : packed_str_to_int [b] = b := by simp [packed_str_to_int]
      rw [h3, h4]
      ring_nf
      simp [pow_succ]
      ring

theorem packed_str_to_int_natToBytesBE (k n : Nat) :
    packed_str_to_int (natToBytesBE k n) = n % 256 ^ k := by
  induction k generalizing n with
  | zero => simp [natToBytesBE, packed_str_to_int, Nat.mod_one]
  | succ k ih =>
      rw [natToBytesBE, packed_str_to_int_append, ih]
      have h4 : packed_str_to_int [n % 256] = n % 256 := by simp [packed_str_to_int]
      simp only [List.length_cons, List.length_nil, h4]
      have key : n % 256 ^ (k + 1) = n % 256 + 256 * (n / 256 % 256 ^ k) := by
        rw [pow_succ, mul_comm (256 ^ k) 256, Nat.mod_mul]
      rw [key]
      ring

theorem packed_str_to_int_natToBytesBE_of_lt (k n : Nat) (h : n < 256 ^ k) :
    packed_str_to_int (natToBytesBE k n) = n := by
  rw [packed_str_to_int_natToBytesBE, Nat.mod_eq_of_lt h]

/-! ## PCP message constants (pcpmessage.py and pcp_data.py) -/

/-- PcpMessageTypes.REQUEST. -/
def PCP_REQUEST : Nat := 0

/-- PcpMessageTypes.RESPONSE. -/
def PCP_RESPONSE : Nat := 1

/-- PcpMessageOpcodes.ANNOUNCE. -/
def OPCODE_ANNOUNCE : Nat := 0

/-- PcpMessageOpcodes.MAP. -/
def OPCODE_MAP : Nat := 1

/-- PcpMessageOpcodes.PEER. -/
def OPCODE_PEER : Nat := 2

/-- PcpMessageOpcodes.OPCODES. -/
def PCP_OPCODES : List Nat := [OPCODE_ANNOUNCE, OPCODE_MAP, OPCODE_PEER]

/-- PcpResultCodes.SUCCESS. -/
def SUCCESS : Nat := 0

/-- PcpResultCodes.UNSUPP_VERSION. -/
def UNSUPP_VERSION : Nat := 1

/-- PcpResultCodes.MALFORMED_REQUEST. -/
def MALFORMED_REQUEST : Nat := 3

/-- PcpResultCodes.UNSUPP_OPCODE. -/
def UNSUPP_OPCODE : Nat := 4

/-- PcpResultCodes.UNSUPP_PROTOCOL. -/
def UNSUPP_PROTOCOL : Nat := 9

/-- PcpResultCodes.ADDRESS_MISMATCH. -/
def ADDRESS_MISMATCH : Nat := 12

/-- SUPPORTED_PCP_VERSIONS from pcp_data.py. -/
def SUPPORTED_PCP_VERSIONS : List Nat := [2]

/-- PcpMessage._COMMON_LENGTH. -/
def COMMON_LENGTH : Nat := 24

/-- PcpMessage._MAP_OPCODE_LENGTH. -/
def MAP_OPCODE_LENGTH : Nat := 36

/-- PcpMessage._PEER_OPCODE_LENGTH. -/
def PEER_OPCODE_LENGTH : Nat := 56

/-- PcpMessage._MINIMUM_MESSAGE_LENGTH. -/
def MINIMUM_MESSAGE_LENGTH : Nat := 2

/-- PcpMessage._MAXIMUM_MESSAGE_LENGTH. -/
def MAXIMUM_MESSAGE_LENGTH : Nat := 1100

/-! ## Python primitives used by the parser

Each primitive that can raise in Python returns Except Unit here, the
error standing for the exception. -/

/-- Sequencing of fallible steps (Python exception propagation). -/
def andThenE {a b : Type} (x : Except Unit a) (f : a → Except Unit b) : Except Unit b :=
  match x with
  | .error e => .error e
  | .ok v => f v

theorem andThenE_ok {a b : Type} (v : a) (f : a → Except Unit b) :
    andThenE (.ok v) f = f v := rfl

theorem andThenE_error {a b : Type} (e : Unit) (f : a → Except Unit b) :
    andThenE (.error e) f = .error e := rfl

/-- Indexing a Python 2 byte string combined with ord; raises IndexError
when out of range. -/
def pyOrd (data : List Nat) (i : Nat) : Except Unit Nat :=
  match data[i]? with
  | some b => .ok b
  | none => .error ()

/-- Python slice data[a:b] for a less than or equal to b: slicing never
raises and truncates at the end of the string. -/
def pySlice (data : List Nat) (a b : Nat) : List Nat :=
  (data.drop a).take (b - a)

/-- Python dict read on a possibly missing key (message fields); raises
KeyError when the field is absent. -/
def pyGetField {a : Type} (v : Option a) : Except Unit a :=
  match v with
  | some x => .ok x
  | none => .error ()

/-- struct.unpack with format !BHL; raises struct.error unless the input
is exactly 7 bytes. -/
def unpackBHL (l : List Nat) : Except Unit (Nat × Nat × Nat) :=
  if l.length = 7 then
    .ok (l.getD 0 0, packed_str_to_int (pySlice l 1 3), packed_str_to_int (pySlice l 3 7))
  else
    .error ()

/-- struct.unpack with format !HH; raises struct.error unless the input
is exactly 4 bytes. -/
def unpackHH (l : List Nat) : Except Unit (Nat × Nat) :=
  if l.length = 4 then
    .ok (packed_str_to_int (pySlice l 0 2), packed_str_to_int (pySlice l 2 4))
  else
    .error ()

/-- struct.unpack with format !H; raises struct.error unless the input is
exactly 2 bytes. -/
def unpackH (l : List Nat) : Except Unit Nat :=
  if l.length = 2 then .ok (packed_str_to_int l) else .error ()

/-! ## Python truthiness for the MAP validity check

The source of PcpMessage._parse_opcode_map tests the expression
(lifetime != 0 and protocol == 0 and internal_port) != 0 with the
parenthesis closing before the comparison, so the and-chain produces
either a bool or the int internal_port and that scalar is compared to 0
under Python equality, where False equals 0 and True equals 1. -/

/-- A Python scalar as produced by an and-chain over bools and ints. -/
inductive PyScalar : Type
  | pybool (b : Bool)
  | pyint (n : Nat)
deriving DecidableEq

/-- Python truthiness of a scalar. -/
def pyTruthy : PyScalar → Bool
  | .pybool b => b
  | .pyint n => n ≠ 0

/-- Python x and y. -/
def pyAnd (x y : PyScalar) : PyScalar :=
  if pyTruthy x then y else x

/-- Python x != 0, with False == 0 and True == 1. -/
def pyNeZero : PyScalar → Bool
  | .pybool b => (if b then 1 else 0) ≠ 0
  | .pyint n => n ≠ 0

/-- The exact condition tested by PcpMessage._parse_opcode_map, lines
319-320 of pcpmessage.py: the parenthesised and-chain compared to 0. -/
def map_lifetime_protocol_port_check (lifetime protocol internalPort : Nat) : Bool :=
  pyNeZero (pyAnd (pyAnd (.pybool (lifetime ≠ 0)) (.pybool (protocol = 0))) (.pyint internalPort))

/-! ## The parsed PCP message

PcpMessage stores its fields in a dict; a field is absent until the
parser assigns it.  The model uses one Option per field, together with
the parse_result and should-discard state of the PcpMessage object. -/

/-- State of a PcpMessage object during PcpMessage.parse. -/
structure ParsedPcpMsg : Type where
  version : Option Nat
  messageType : Option Nat
  opcode : Option Nat
  lifetime : Option Nat
  pcpClientIp : Option Nat
  mappingNonce : Option (List Nat)
  protocol : Option Nat
  internalPort : Option Nat
  externalPort : Option Nat
  externalIp : Option Nat
  remotePeerPort : Option Nat
  remotePeerIp : Option Nat
  parseResult : Nat
  shouldDiscard : Bool
deriving DecidableEq

/-- A PcpMessage object as constructed at the top of PcpMessage.parse:
no fields, parse_result SUCCESS, not discarded. -/
def emptyPcpMsg : ParsedPcpMsg :=
  { version := none, messageType := none, opcode := none, lifetime := none,
    pcpClientIp := none, mappingNonce := none, protocol := none,
    internalPort := none, externalPort := none, externalIp := none,
    remotePeerPort := none, remotePeerIp := none,
    parseResult := SUCCESS, shouldDiscard := false }

/-- Model of PcpMessage._parse_opcode_common: nonce, protocol, ports and
external address from the opcode payload.  The mapping nonce is stored by
the source as a lowercase hex string, in bijection with the 12 raw bytes;
the model stores the bytes. -/
def parse_opcode_common (d : List Nat) (pm : ParsedPcpMsg) : Except Unit ParsedPcpMsg :=
  let pm1 := { pm with mappingNonce := some (pySlice d 0 12) }
  andThenE (pyOrd d 12) fun b12 =>
  let pm2 := { pm1 with protocol := some b12 }
  andThenE (unpackHH (pySlice d 16 20)) fun ports =>
  let pm3 := { pm2 with internalPort := some ports.1, externalPort := some ports.2 }
  .ok { pm3 with externalIp := some (packed_str_to_ip_addr (pySlice d 20 36)) }

/-- Model of PcpMessage._parse_opcode_map, including the protocol-zero
check written with the misplaced parenthesis (see
map_lifetime_protocol_port_check) and the zero-internal-port check. -/
def parse_opcode_map (d : List Nat) (pm : ParsedPcpMsg) : Except Unit ParsedPcpMsg :=
  if d.length < MAP_OPCODE_LENGTH then
    .ok { pm with parseResult := MALFORMED_REQUEST }
  else
    andThenE (parse_opcode_common d pm) fun pm1 =>
    andThenE (pyGetField pm1.lifetime) fun lt =>
    andThenE (pyGetField pm1.protocol) fun pr =>
    andThenE (pyGetField pm1.internalPort) fun ipo =>
    if map_lifetime_protocol_port_check lt pr ipo then
      .ok { pm1 with parseResult := MALFORMED_REQUEST }
    else if ipo = 0 then
      .ok { pm1 with parseResult := UNSUPP_PROTOCOL }
    else
      .ok pm1

/-- Model of PcpMessage._parse_opcode_peer. -/
def parse_opcode_peer (d : List Nat) (pm : ParsedPcpMsg) : Except Unit ParsedPcpMsg :=
  if d.length < PEER_OPCODE_LENGTH then
    .ok { pm with parseResult := MALFORMED_REQUEST }
  else
    andThenE (parse_opcode_common d pm) fun pm1 =>
    andThenE (unpackH (pySlice d 36 38)) fun rpp =>
    let pm2 := { pm1 with remotePeerPort := some rpp }
    .ok { pm2 with remotePeerIp := some (packed_str_to_ip_addr (pySlice d 40 56)) }

/-- Model of PcpMessage._parse_opcode. -/
def parse_opcode (d : List Nat) (pm : ParsedPcpMsg) : Except Unit ParsedPcpMsg :=
  andThenE (pyGetField pm.opcode) fun opc =>
  if opc = OPCODE_MAP then parse_opcode_map d pm
  else if opc = OPCODE_PEER then parse_opcode_peer d pm
  else .ok pm

/-- Model of PcpMessage._parse_request.  srcIp is the PCP client address
taken from the IP header (stored on the object before parsing). -/
def parse_request (data : List Nat) (srcIp : Nat) (pm0 : ParsedPcpMsg) :
    Except Unit ParsedPcpMsg :=
  andThenE (pyOrd data 0) fun b0 =>
  let pm1 := { pm0 with version := some b0 }
  let pm2 := if b0 ∉ SUPPORTED_PCP_VERSIONS then
               { pm1 with parseResult := UNSUPP_VERSION }
             else pm1
  if data.length < COMMON_LENGTH then
    .ok { pm2 with shouldDiscard := true }
  else
    andThenE (unpackBHL (pySlice data 1 8)) fun fields =>
    let pm3 := { pm2 with
      messageType := some (fields.1 >>> 7),
      opcode := some (fields.1 &&& 0x7f),
      lifetime := some fields.2.2,
      pcpClientIp := some (packed_str_to_ip_addr (pySlice data 8 24)) }
    andThenE (pyGetField pm3.opcode) fun opc =>
    let pm4 := if opc ∉ PCP_OPCODES then
                 { pm3 with parseResult := UNSUPP_OPCODE }
               else pm3
    andThenE (pyGetField pm4.pcpClientIp) fun cip =>
    let pm5 := if srcIp ≠ cip then
                 { pm4 with parseResult := ADDRESS_MISMATCH }
               else pm4
    parse_opcode (data.drop COMMON_LENGTH) pm5

/-- Model of PcpMessage.parse.  Returns ok none for a silent drop, ok
(some pm) for a parsed message carrying its parse_result, and error for a
raised exception (which claim C10 shows cannot happen). -/
def parse_pcp_message (data : List Nat) (srcIp : Nat) :
    Except Unit (Option ParsedPcpMsg) :=
  if data.length < MINIMUM_MESSAGE_LENGTH then
    .ok none
  else
    andThenE (pyOrd data 1) fun b1 =>
    if b1 >>> 7 ≠ PCP_REQUEST then
      .ok none
    else
      andThenE (parse_request data srcIp emptyPcpMsg) fun pm =>
      if pm.shouldDiscard then
        .ok none
      else
        let pm1 := if data.length % 4 ≠ 0 then
                     { pm with parseResult := MALFORMED_REQUEST }
                   else pm
        let pm2 := if data.length > MAXIMUM_MESSAGE_LENGTH then
                     { pm1 with parseResult := MALFORMED_REQUEST }
                   else pm1
        .ok (some pm2)

/-! ## PCP request serialization (PcpMessage._serialize_request) -/

/-- A PCP REQUEST message with all fields present (the fields that the
serializer of the relevant opcode reads; unused fields are ignored).
Addresses are numeric values of the presentation strings, and the nonce
is the byte list of the stored hex string. -/
structure PcpRequestMsg : Type where
  version : Nat
  messageType : Nat
  opcode : Nat
  lifetime : Nat
  pcpClientIp : Nat
  mappingNonce : List Nat
  protocol : Nat
  internalPort : Nat
  externalPort : Nat
  externalIp : Nat
  remotePeerPort : Nat
  remotePeerIp : Nat
deriving DecidableEq

/-- Model of PcpMessage._serialize_opcode_common: nonce bytes, protocol,
three reserved bytes, the two ports and the external address. -/
def serialize_opcode_common (m : PcpRequestMsg) : List Nat :=
  m.mappingNonce ++ [m.protocol] ++ [0, 0, 0] ++
    natToBytesBE 2 m.internalPort ++ natToBytesBE 2 m.externalPort ++
    ip_addr_to_packed_str m.externalIp

/-- Model of PcpMessage._serialize_opcode (MAP and PEER trailers). -/
def serialize_opcode (m : PcpRequestMsg) : List Nat :=
  if m.opcode = OPCODE_MAP then
    serialize_opcode_common m
  else if m.opcode = OPCODE_PEER then
    serialize_opcode_common m ++ natToBytesBE 2 m.remotePeerPort ++ [0, 0] ++
      ip_addr_to_packed_str m.remotePeerIp
  else
    []

/-- Model of PcpMessage._serialize_request: the !BBHL header followed by
the packed client address and the opcode trailer. -/
def serialize_request (m : PcpRequestMsg) : List Nat :=
  [m.version, m.opcode ||| (m.messageType <<< 7)] ++ natToBytesBE 2 0 ++
    natToBytesBE 4 m.lifetime ++ ip_addr_to_packed_str m.pcpClientIp ++
    serialize_opcode m

/-- A well-formed PCP REQUEST: the struct.pack range constraints of the
serializer together with the validity conditions that PcpMessage.parse
checks (supported version, known opcode, and for MAP a nonzero internal
port and no mapping-for-all-protocols conflict). -/
def wellFormedRequest (m : PcpRequestMsg) : Prop :=
  m.version ∈ SUPPORTED_PCP_VERSIONS ∧
  m.messageType = PCP_REQUEST ∧
  m.opcode ∈ PCP_OPCODES ∧
  m.lifetime < 2 ^ 32 ∧
  m.pcpClientIp < 2 ^ 128 ∧
  ((m.opcode = OPCODE_MAP ∨ m.opcode = OPCODE_PEER) →
    m.mappingNonce.length = 12 ∧ (∀ b ∈ m.mappingNonce, b < 256) ∧
    m.protocol < 256 ∧ m.internalPort < 2 ^ 16 ∧ m.externalPort < 2 ^ 16 ∧
    m.externalIp < 2 ^ 128) ∧
  (m.opcode = OPCODE_MAP → m.internalPort ≠ 0 ∧ (m.lifetime = 0 ∨ m.protocol ≠ 0)) ∧
  (m.opcode = OPCODE_PEER → m.remotePeerPort < 2 ^ 16 ∧ m.remotePeerIp < 2 ^ 128)

instance (m : PcpRequestMsg) : Decidable (wellFormedRequest m) := by
  unfold wellFormedRequest
  infer_instance

/-! ## Round-trip of the serializer and the parser (claim C1) -/

/-- The PcpMessage state after the common header of a serialized
well-formed request has been parsed. -/
def requestHeaderMsg (m : PcpRequestMsg) : ParsedPcpMsg :=
  { emptyPcpMsg with
    version := some m.version,
    messageType := some m.messageType,
    opcode := some m.opcode,
    lifetime := some m.lifetime,
    pcpClientIp := some m.pcpClientIp }

theorem natToBytesBE_two_zero : natToBytesBE 2 0 = [0, 0] := by decide

theorem serialize_request_shape (m : PcpRequestMsg) (hmt : m.messageType = PCP_REQUEST) :
    serialize_request m = m.version :: m.opcode :: 0 :: 0 ::
      (natToBytesBE 4 m.lifetime ++ (natToBytesBE 16 m.pcpClientIp ++ serialize_opcode m)) := by
  have hob : m.opcode ||| (m.messageType <<< 7) = m.opcode := by
    rw [hmt]; simp [PCP_REQUEST]
  simp [serialize_request, ip_addr_to_packed_str, natToBytesBE_two_zero, hob]

theorem length_serialize_request (m : PcpRequestMsg) (hmt : m.messageType = PCP_REQUEST) :
    (serialize_request m).length = 24 + (serialize_opcode m).length := by
  rw [serialize_request_shape m hmt]
  simp [length_natToBytesBE]
  omega

set_option maxHeartbeats 1000000 in
theorem parse_request_on_serialized (m : PcpRequestMsg) (h : wellFormedRequest m) :
    parse_request (serialize_request m) m.pcpClientIp emptyPcpMsg =
      parse_opcode (serialize_opcode m) (requestHeaderMsg m) := by
  obtain ⟨hv, hmt, hop, hlt, hip, _hmp, _hmap, _hpeer⟩ := h
  have hv2 : m.version = 2 := by simpa [SUPPORTED_PCP_VERSIONS] using hv
  have hop3 : m.opcode = 0 ∨ m.opcode = 1 ∨ m.opcode = 2 := by
    simpa [PCP_OPCODES, OPCODE_ANNOUNCE, OPCODE_MAP, OPCODE_PEER] using hop
  have hshape := serialize_request_shape m hmt
  have hsh7 : m.opcode >>> 7 = 0 := by
    rcases hop3 with h1 | h1 | h1 <;> rw [h1] <;> decide
  have hand : m.opcode &&& 0x7f = m.opcode := by
    rcases hop3 with h1 | h1 | h1 <;> rw [h1] <;> decide
  have hb0 : pyOrd (serialize_request m) 0 = .ok m.version := by
    rw [hshape]; simp [pyOrd]
  have hlen : (serialize_request m).length = 24 + (serialize_opcode m).length :=
    length_serialize_request m hmt
  have hlen_if : ¬ ((serialize_request m).length < COMMON_LENGTH) := by
    rw [hlen]; simp [COMMON_LENGTH]
  have htake4 : (natToBytesBE 4 m.lifetime).take 4 = natToBytesBE 4 m.lifetime := by
    conv in (List.take 4 _) => rw [← length_natToBytesBE 4 m.lifetime]
    exact List.take_length _
  have hslice1 : pySlice (serialize_request m) 1 8 =
      m.opcode :: 0 :: 0 :: natToBytesBE 4 m.lifetime := by
    rw [hshape]
    simp [pySlice, List.take_left' (length_natToBytesBE 4 m.lifetime)]
  have hBHL : unpackBHL (pySlice (serialize_request m) 1 8) = .ok (m.opcode, 0, m.lifetime) := by
    rw [hslice1]
    unfold unpackBHL
    rw [if_pos (by simp [length_natToBytesBE])]
    have hs13 : pySlice (m.opcode :: 0 :: 0 :: natToBytesBE 4 m.lifetime) 1 3 = [0, 0] := by
      simp [pySlice]
    have hs37 : pySlice (m.opcode :: 0 :: 0 :: natToBytesBE 4 m.lifetime) 3 7 =
        natToBytesBE 4 m.lifetime := by
      simp [pySlice, htake4]
    have hv4 : packed_str_to_int (natToBytesBE 4 m.lifetime) = m.lifetime := by
      apply packed_str_to_int_natToBytesBE_of_lt
      have h28 : (256 : Nat) ^ 4 = 2 ^ 32 := by norm_num
      omega
    have h00 : packed_str_to_int [(0 : Nat), 0] = 0 := by
      simp [packed_str_to_int]
    rw [hs13, hs37, hv4, h00]
    simp [List.getD]
  have hip16 : packed_str_to_ip_addr (natToBytesBE 16 m.pcpClientIp) = m.pcpClientIp := by
    unfold packed_str_to_ip_addr
    apply packed_str_to_int_natToBytesBE_of_lt
    have h216 : (256 : Nat) ^ 16 = 2 ^ 128 := by norm_num
    omega
  have hcip : packed_str_to_ip_addr (pySlice (serialize_request m) 8 24) = m.pcpClientIp := by
    rw [hshape]
    simp [pySlice, List.drop_left' (length_natToBytesBE 4 m.lifetime),
      List.take_left' (length_natToBytesBE 16 m.pcpClientIp), hip16]
  have hdrop : (serialize_request m).drop COMMON_LENGTH = serialize_opcode m := by
    rw [hshape]
    have hstep : (m.version :: m.opcode :: 0 :: 0 ::
        (natToBytesBE 4 m.lifetime ++ (natToBytesBE 16 m.pcpClientIp ++ serialize_opcode m))).drop
          COMMON_LENGTH
        = (natToBytesBE 4 m.lifetime ++
            (natToBytesBE 16 m.pcpClientIp ++ serialize_opcode m)).drop 20 := by
      simp [COMMON_LENGTH]
    rw [hstep]
    have h20 : (20 : Nat) = (natToBytesBE 4 m.lifetime).length + 16 := by
      simp [length_natToBytesBE]
    rw [h20, List.drop_append]
    exact List.drop_left' (length_natToBytesBE 16 m.pcpClientIp)
  have hop_if : ¬ (m.opcode ∉ PCP_OPCODES) := not_not_intro hop
  have hmis : ¬ (m.pcpClientIp ≠ m.pcpClientIp) := by simp
  simp [parse_request, hb0, hBHL, andThenE, pyGetField, hcip, hdrop, hand, hsh7,
    hv2, SUPPORTED_PCP_VERSIONS, hlen_if, hop, hmis, requestHeaderMsg, emptyPcpMsg,
    hmt, PCP_REQUEST]

theorem map_check_iff (l p i : Nat) :
    map_lifetime_protocol_port_check l p i = true ↔ (l ≠ 0 ∧ p = 0 ∧ i ≠ 0) := by
  unfold map_lifetime_protocol_port_check pyAnd pyTruthy pyNeZero
  by_cases hl : l = 0 <;> by_cases hp : p = 0 <;> simp [hl, hp]

theorem serialize_opcode_common_shape (m : PcpRequestMsg) (Q : List Nat) :
    serialize_opcode_common m ++ Q = m.mappingNonce ++ (m.protocol :: 0 :: 0 :: 0 ::
      (natToBytesBE 2 m.internalPort ++ (natToBytesBE 2 m.externalPort ++
        (natToBytesBE 16 m.externalIp ++ Q)))) := by
  simp [serialize_opcode_common, ip_addr_to_packed_str]

theorem length_serialize_opcode_common (m : PcpRequestMsg) (hn : m.mappingNonce.length = 12) :
    (serialize_opcode_common m).length = 36 := by
  have h := serialize_opcode_common_shape m []
  simp at h
  rw [h]
  simp [length_natToBytesBE, hn]

theorem drop_append_len {A : Type} (l1 l2 : List A) (n : Nat) (h : l1.length ≤ n) :
    (l1 ++ l2).drop n = l2.drop (n - l1.length) := by
  have hn : n = l1.length + (n - l1.length) := by omega
  conv_lhs => rw [hn, List.drop_append]

theorem take_append_len {A : Type} (l1 l2 : List A) (n : Nat) (h : l1.length ≤ n) :
    (l1 ++ l2).take n = l1 ++ l2.take (n - l1.length) := by
  have hn : n = l1.length + (n - l1.length) := by omega
  conv_lhs => rw [hn, List.take_append]

theorem take_all_len {A : Type} (l : List A) (n : Nat) (h : l.length = n) :
    l.take n = l := by
  rw [← h]
  exact List.take_length l

set_option maxHeartbeats 1000000 in
theorem parse_opcode_common_on_serialized (m : PcpRequestMsg) (pm : ParsedPcpMsg)
    (Q : List Nat) (hn : m.mappingNonce.length = 12)
    (hipo : m.internalPort < 2 ^ 16) (hepo : m.externalPort < 2 ^ 16)
    (heip : m.externalIp < 2 ^ 128) :
    parse_opcode_common (serialize_opcode_common m ++ Q) pm =
      .ok { pm with
        mappingNonce := some m.mappingNonce,
        protocol := some m.protocol,
        internalPort := some m.internalPort,
        externalPort := some m.externalPort,
        externalIp := some m.externalIp } := by
  have hshape := serialize_opcode_common_shape m Q
  have h2ip : (natToBytesBE 2 m.internalPort).length = 2 := length_natToBytesBE 2 m.internalPort
  have h2ep : (natToBytesBE 2 m.externalPort).length = 2 := length_natToBytesBE 2 m.externalPort
  have h16 : (natToBytesBE 16 m.externalIp).length = 16 := length_natToBytesBE 16 m.externalIp
  have hs12 : pySlice (serialize_opcode_common m ++ Q) 0 12 = m.mappingNonce := by
    rw [hshape]
    simp [pySlice, List.take_left' hn]
  have hb12 : pyOrd (serialize_opcode_common m ++ Q) 12 = .ok m.protocol := by
    rw [hshape]
    unfold pyOrd
    rw [List.getElem?_append_right (by omega)]
    simp [hn]
  have hs1620 : pySlice (serialize_opcode_common m ++ Q) 16 20 =
      natToBytesBE 2 m.internalPort ++ natToBytesBE 2 m.externalPort := by
    rw [hshape]
    unfold pySlice
    rw [drop_append_len _ _ 16 (by omega), hn]
    have hd4 : (m.protocol :: 0 :: 0 :: 0 ::
        (natToBytesBE 2 m.internalPort ++ (natToBytesBE 2 m.externalPort ++
          (natToBytesBE 16 m.externalIp ++ Q)))).drop (16 - 12)
        = natToBytesBE 2 m.internalPort ++ (natToBytesBE 2 m.externalPort ++
            (natToBytesBE 16 m.externalIp ++ Q)) := by
      simp
    rw [hd4]
    rw [take_append_len _ _ (20 - 16) (by omega), h2ip]
    rw [take_append_len _ _ (20 - 16 - 2) (by omega), h2ep]
    have hz : (20 - 16 - 2 - 2 : Nat) = 0 := by omega
    rw [hz]
    simp
  have hs2036 : pySlice (serialize_opcode_common m ++ Q) 20 36 =
      natToBytesBE 16 m.externalIp := by
    rw [hshape]
    unfold pySlice
    rw [drop_append_len _ _ 20 (by omega), hn]
    have hd8 : (m.protocol :: 0 :: 0 :: 0 ::
        (natToBytesBE 2 m.internalPort ++ (natToBytesBE 2 m.externalPort ++
          (natToBytesBE 16 m.externalIp ++ Q)))).drop (20 - 12)
        = (natToBytesBE 2 m.internalPort ++ (natToBytesBE 2 m.externalPort ++
            (natToBytesBE 16 m.externalIp ++ Q))).drop 4 := by
      simp
    rw [hd8]
    rw [drop_append_len _ _ 4 (by omega), h2ip]
    rw [drop_append_len _ _ (4 - 2) (by omega), h2ep]
    have hz : (4 - 2 - 2 : Nat) = 0 := by omega
    rw [hz, List.drop_zero]
    rw [take_append_len _ _ (36 - 20) (by omega), h16]
    have hz2 : (36 - 20 - 16 : Nat) = 0 := by omega
    rw [hz2]
    simp
  have hHH : unpackHH (pySlice (serialize_opcode_common m ++ Q) 16 20) =
      .ok (m.internalPort, m.externalPort) := by
    rw [hs1620]
    unfold unpackHH
    rw [if_pos (by simp [h2ip, h2ep])]
    have ha : pySlice (natToBytesBE 2 m.internalPort ++ natToBytesBE 2 m.externalPort) 0 2 =
        natToBytesBE 2 m.internalPort := by
      simp [pySlice, List.take_left' h2ip]
    have hb : pySlice (natToBytesBE 2 m.internalPort ++ natToBytesBE 2 m.externalPort) 2 4 =
        natToBytesBE 2 m.externalPort := by
      unfold pySlice
      rw [List.drop_left' h2ip]
      exact take_all_len _ _ h2ep
    rw [ha, hb]
    have hvi : packed_str_to_int (natToBytesBE 2 m.internalPort) = m.internalPort := by
      apply packed_str_to_int_natToBytesBE_of_lt
      have h22 : (256 : Nat) ^ 2 = 2 ^ 16 := by norm_num
      omega
    have hve : packed_str_to_int (natToBytesBE 2 m.externalPort) = m.externalPort := by
      apply packed_str_to_int_natToBytesBE_of_lt
      have h22 : (256 : Nat) ^ 2 = 2 ^ 16 := by norm_num
      omega
    rw [hvi, hve]
  have hext : packed_str_to_ip_addr (pySlice (serialize_opcode_common m ++ Q) 20 36) =
      m.externalIp := by
    rw [hs2036]
    unfold packed_str_to_ip_addr
    apply packed_str_to_int_natToBytesBE_of_lt
    have h216 : (256 : Nat) ^ 16 = 2 ^ 128 := by norm_num
    omega
  unfold parse_opcode_common
  rw [hb12, andThenE_ok, hHH, andThenE_ok]
  rw [hs12, hext]

/-- Expected parse result of a serialized well-formed MAP request. -/
def requestMapParsedMsg (m : PcpRequestMsg) : ParsedPcpMsg :=
  { requestHeaderMsg m with
    mappingNonce := some m.mappingNonce,
    protocol := some m.protocol,
    internalPort := some m.internalPort,
    externalPort := some m.externalPort,
    externalIp := some m.externalIp }

/-- Expected parse result of a serialized well-formed PEER request. -/
def requestPeerParsedMsg (m : PcpRequestMsg) : ParsedPcpMsg :=
  { requestMapParsedMsg m with
    remotePeerPort := some m.remotePeerPort,
    remotePeerIp := some m.remotePeerIp }

set_option maxHeartbeats 1000000 in
theorem parse_opcode_on_serialized (m : PcpRequestMsg) (h : wellFormedRequest m) :
    parse_opcode (serialize_opcode m) (requestHeaderMsg m) =
      .ok (if m.opcode = OPCODE_MAP then requestMapParsedMsg m
           else if m.opcode = OPCODE_PEER then requestPeerParsedMsg m
           else requestHeaderMsg m) := by
  obtain ⟨hv, hmt, hop, hlt, hip, hmp, hmap, hpeer⟩ := h
  have hop3 : m.opcode = 0 ∨ m.opcode = 1 ∨ m.opcode = 2 := by
    simpa [PCP_OPCODES, OPCODE_ANNOUNCE, OPCODE_MAP, OPCODE_PEER] using hop
  rcases hop3 with h1 | h1 | h1
  · -- ANNOUNCE: no opcode payload, no opcode-specific parsing
    have hser : serialize_opcode m = [] := by
      simp [serialize_opcode, h1, OPCODE_MAP, OPCODE_PEER]
    unfold parse_opcode
    simp [requestHeaderMsg, pyGetField, andThenE, h1, OPCODE_MAP, OPCODE_PEER]
  · -- MAP
    obtain ⟨hn, _hnb, hpr, hipo, hepo, heip⟩ := hmp (Or.inl (by simp [h1, OPCODE_MAP]))
    obtain ⟨hip0, hlp⟩ := hmap (by simp [h1, OPCODE_MAP])
    have hser : serialize_opcode m = serialize_opcode_common m := by
      simp [serialize_opcode, h1, OPCODE_MAP]
    have hcl : (serialize_opcode_common m).length = 36 := length_serialize_opcode_common m hn
    have hc := parse_opcode_common_on_serialized m (requestHeaderMsg m) [] hn hipo hepo heip
    rw [List.append_nil] at hc
    have hck : ¬ (map_lifetime_protocol_port_check m.lifetime m.protocol m.internalPort = true) := by
      rw [map_check_iff]
      rintro ⟨hl, hp, _⟩
      rcases hlp with h0 | h0
      · exact hl h0
      · exact h0 hp
    have hopf : pyGetField (requestHeaderMsg m).opcode = .ok m.opcode := by
      simp [requestHeaderMsg, emptyPcpMsg, pyGetField]
    unfold parse_opcode
    rw [hser, hopf, andThenE_ok]
    rw [if_pos (show m.opcode = OPCODE_MAP by simp [h1, OPCODE_MAP])]
    unfold parse_opcode_map
    rw [if_neg (by rw [hcl]; simp [MAP_OPCODE_LENGTH])]
    rw [hc, andThenE_ok]
    simp only [requestHeaderMsg, emptyPcpMsg, pyGetField, andThenE]
    rw [if_neg hck, if_neg hip0]
    simp [requestMapParsedMsg, requestHeaderMsg, emptyPcpMsg, h1, OPCODE_MAP]
  · -- PEER
    obtain ⟨hn, _hnb, hpr, hipo, hepo, heip⟩ := hmp (Or.inr (by simp [h1, OPCODE_PEER]))
    obtain ⟨hrpp, hrpi⟩ := hpeer (by simp [h1, OPCODE_PEER])
    have h2rp : (natToBytesBE 2 m.remotePeerPort).length = 2 :=
      length_natToBytesBE 2 m.remotePeerPort
    have h16rp : (natToBytesBE 16 m.remotePeerIp).length = 16 :=
      length_natToBytesBE 16 m.remotePeerIp
    have hcl : (serialize_opcode_common m).length = 36 := length_serialize_opcode_common m hn
    have hser : serialize_opcode m = serialize_opcode_common m ++
        (natToBytesBE 2 m.remotePeerPort ++ ([0, 0] ++ natToBytesBE 16 m.remotePeerIp)) := by
      simp [serialize_opcode, h1, OPCODE_MAP, OPCODE_PEER, ip_addr_to_packed_str]
    have hlenP : (serialize_opcode_common m ++
        (natToBytesBE 2 m.remotePeerPort ++ ([0, 0] ++ natToBytesBE 16 m.remotePeerIp))).length
        = 56 := by
      simp [hcl, h2rp, h16rp]
    have hc := parse_opcode_common_on_serialized m (requestHeaderMsg m)
      (natToBytesBE 2 m.remotePeerPort ++ ([0, 0] ++ natToBytesBE 16 m.remotePeerIp))
      hn hipo hepo heip
    have hs3638 : pySlice (serialize_opcode_common m ++
        (natToBytesBE 2 m.remotePeerPort ++ ([0, 0] ++ natToBytesBE 16 m.remotePeerIp))) 36 38
        = natToBytesBE 2 m.remotePeerPort := by
      unfold pySlice
      rw [drop_append_len _ _ 36 (by omega), hcl]
      have hz : (36 - 36 : Nat) = 0 := by omega
      rw [hz, List.drop_zero]
      rw [take_append_len _ _ (38 - 36) (by omega), h2rp]
      have hz2 : (38 - 36 - 2 : Nat) = 0 := by omega
      rw [hz2]
      simp
    have hH : unpackH (pySlice (serialize_opcode_common m ++
        (natToBytesBE 2 m.remotePeerPort ++ ([0, 0] ++ natToBytesBE 16 m.remotePeerIp))) 36 38)
        = .ok m.remotePeerPort := by
      rw [hs3638]
      unfold unpackH
      rw [if_pos h2rp]
      congr 1
      apply packed_str_to_int_natToBytesBE_of_lt
      have h22 : (256 : Nat) ^ 2 = 2 ^ 16 := by norm_num
      omega
    have hs4056 : pySlice (serialize_opcode_common m ++
        (natToBytesBE 2 m.remotePeerPort ++ ([0, 0] ++ natToBytesBE 16 m.remotePeerIp))) 40 56
        = natToBytesBE 16 m.remotePeerIp := by
      unfold pySlice
      rw [drop_append_len _ _ 40 (by omega), hcl]
      have h40 : (40 - 36 : Nat) = 4 := by omega
      rw [h40]
      rw [drop_append_len _ _ 4 (by omega), h2rp]
      have h42 : (4 - 2 : Nat) = 2 := by omega
      rw [h42]
      have hd2 : (([0, 0] ++ natToBytesBE 16 m.remotePeerIp) : List Nat).drop 2 =
          natToBytesBE 16 m.remotePeerIp := by
        simp
      rw [hd2]
      exact take_all_len _ _ (by rw [h16rp])
    have hrp16 : packed_str_to_ip_addr (natToBytesBE 16 m.remotePeerIp) = m.remotePeerIp := by
      unfold packed_str_to_ip_addr
      apply packed_str_to_int_natToBytesBE_of_lt
      have h216 : (256 : Nat) ^ 16 = 2 ^ 128 := by norm_num
      omega
    have hopf : pyGetField (requestHeaderMsg m).opcode = .ok m.opcode := by
      simp [requestHeaderMsg, emptyPcpMsg, pyGetField]
    unfold parse_opcode
    rw [hser, hopf, andThenE_ok]
    rw [if_neg (show ¬ (m.opcode = OPCODE_MAP) by simp [h1, OPCODE_MAP])]
    rw [if_pos (show m.opcode = OPCODE_PEER by simp [h1, OPCODE_PEER])]
    unfold parse_opcode_peer
    rw [if_neg (by rw [hlenP]; simp [PEER_OPCODE_LENGTH])]
    rw [hc, andThenE_ok, hH, andThenE_ok, hs4056, hrp16]
    simp [requestPeerParsedMsg, requestMapParsedMsg, requestHeaderMsg, emptyPcpMsg,
      h1, OPCODE_MAP, OPCODE_PEER]

/-- C1: for every well-formed PCP REQUEST message m, parsing the
serialization of m with the pcp_client_ip of m as the source address
yields a message whose parse_result is SUCCESS and whose every field
(version, message_type, opcode, lifetime, pcp_client_ip, and for MAP and
PEER the mapping_nonce, protocol, internal_port, external_port,
external_ip, and for PEER also remote_peer_port and remote_peer_ip)
equals the corresponding field of m. -/
theorem C1_parse_serialize_roundtrip (m : PcpRequestMsg) (h : wellFormedRequest m) :
    ∃ pm : ParsedPcpMsg,
      parse_pcp_message (serialize_request m) m.pcpClientIp = .ok (some pm) ∧
      pm.parseResult = SUCCESS ∧
      pm.version = some m.version ∧
      pm.messageType = some m.messageType ∧
      pm.opcode = some m.opcode ∧
      pm.lifetime = some m.lifetime ∧
      pm.pcpClientIp = some m.pcpClientIp ∧
      ((m.opcode = OPCODE_MAP ∨ m.opcode = OPCODE_PEER) →
        pm.mappingNonce = some m.mappingNonce ∧
        pm.protocol = some m.protocol ∧
        pm.internalPort = some m.internalPort ∧
        pm.externalPort = some m.externalPort ∧
        pm.externalIp = some m.externalIp) ∧
      (m.opcode = OPCODE_PEER →
        pm.remotePeerPort = some m.remotePeerPort ∧
        pm.remotePeerIp = some m.remotePeerIp) := by
  have h0 := h
  obtain ⟨hv, hmt, hop, hlt, hip, hmp, hmap, hpeer⟩ := h0
  have hop3 : m.opcode = 0 ∨ m.opcode = 1 ∨ m.opcode = 2 := by
    simpa [PCP_OPCODES, OPCODE_ANNOUNCE, OPCODE_MAP, OPCODE_PEER] using hop
  have hshape := serialize_request_shape m hmt
  have hsh7 : m.opcode >>> 7 = 0 := by
    rcases hop3 with h1 | h1 | h1 <;> rw [h1] <;> decide
  have hb1 : pyOrd (serialize_request m) 1 = .ok m.opcode := by
    rw [hshape]; simp [pyOrd]
  have hreq := parse_request_on_serialized m h
  have hopc := parse_opcode_on_serialized m h
  have hlen : (serialize_request m).length = 24 + (serialize_opcode m).length :=
    length_serialize_request m hmt
  have hol : (serialize_opcode m).length = 0 ∨ (serialize_opcode m).length = 36 ∨
      (serialize_opcode m).length = 56 := by
    rcases hop3 with h1 | h1 | h1
    · left
      simp [serialize_opcode, h1, OPCODE_MAP, OPCODE_PEER]
    · right; left
      have hn := (hmp (Or.inl (by simp [h1, OPCODE_MAP]))).1
      have hser : serialize_opcode m = serialize_opcode_common m := by
        simp [serialize_opcode, h1, OPCODE_MAP]
      rw [hser]
      exact length_serialize_opcode_common m hn
    · right; right
      have hn := (hmp (Or.inr (by simp [h1, OPCODE_PEER]))).1
      have hser : serialize_opcode m = serialize_opcode_common m ++
          (natToBytesBE 2 m.remotePeerPort ++ ([0, 0] ++ natToBytesBE 16 m.remotePeerIp)) := by
        simp [serialize_opcode, h1, OPCODE_MAP, OPCODE_PEER, ip_addr_to_packed_str]
      rw [hser]
      simp [length_serialize_opcode_common m hn, length_natToBytesBE]
  have hmod : (serialize_request m).length % 4 = 0 := by
    rw [hlen]; rcases hol with h1 | h1 | h1 <;> rw [h1]
  have hmax : ¬ ((serialize_request m).length > MAXIMUM_MESSAGE_LENGTH) := by
    rw [hlen]; rcases hol with h1 | h1 | h1 <;> rw [h1] <;> simp [MAXIMUM_MESSAGE_LENGTH]
  refine ⟨if m.opcode = OPCODE_MAP then requestMapParsedMsg m
          else if m.opcode = OPCODE_PEER then requestPeerParsedMsg m
          else requestHeaderMsg m, ?_, ?_⟩
  · unfold parse_pcp_message
    rw [if_neg (by rw [hlen]; simp [MINIMUM_MESSAGE_LENGTH]; omega)]
    rw [hb1, andThenE_ok]
    rw [if_neg (by rw [hsh7]; simp [PCP_REQUEST])]
    rw [hreq, hopc, andThenE_ok]
    have hdisc : (if m.opcode = OPCODE_MAP then requestMapParsedMsg m
        else if m.opcode = OPCODE_PEER then requestPeerParsedMsg m
        else requestHeaderMsg m).shouldDiscard = false := by
      rcases hop3 with h1 | h1 | h1 <;>
        simp [h1, OPCODE_MAP, OPCODE_PEER, requestMapParsedMsg, requestPeerParsedMsg,
          requestHeaderMsg, emptyPcpMsg]
    rw [if_neg (by rw [hdisc]; simp)]
    rw [if_neg (by rw [hmod]; simp)]
    simp [hmax]
  · rcases hop3 with h1 | h1 | h1 <;>
      simp [h1, OPCODE_MAP, OPCODE_PEER, requestMapParsedMsg, requestPeerParsedMsg,
        requestHeaderMsg, emptyPcpMsg, SUCCESS]

/-- A concrete MAP request (the message used by the repository test
suite: lifetime 300, protocol UDP, internal port 1250, client address
192.168.1.1 as an IPv4-mapped value). -/
def c1WitnessMsg : PcpRequestMsg :=
  { version := 2, messageType := 0, opcode := 1, lifetime := 300,
    pcpClientIp := 281473913979137,
    mappingNonce := [1, 2, 3, 4, 100, 255, 142, 17, 10, 9, 2, 4],
    protocol := 17, internalPort := 1250, externalPort := 5555,
    externalIp := 281473903427585, remotePeerPort := 0, remotePeerIp := 0 }

theorem C1_witness :
    wellFormedRequest c1WitnessMsg ∧
    (∃ pm : ParsedPcpMsg,
      parse_pcp_message (serialize_request c1WitnessMsg) c1WitnessMsg.pcpClientIp =
        .ok (some pm) ∧
      pm.parseResult = SUCCESS ∧
      pm.version = some c1WitnessMsg.version ∧
      pm.messageType = some c1WitnessMsg.messageType ∧
      pm.opcode = some c1WitnessMsg.opcode ∧
      pm.lifetime = some c1WitnessMsg.lifetime ∧
      pm.pcpClientIp = some c1WitnessMsg.pcpClientIp ∧
      ((c1WitnessMsg.opcode = OPCODE_MAP ∨ c1WitnessMsg.opcode = OPCODE_PEER) →
        pm.mappingNonce = some c1WitnessMsg.mappingNonce ∧
        pm.protocol = some c1WitnessMsg.protocol ∧
        pm.internalPort = some c1WitnessMsg.internalPort ∧
        pm.externalPort = some c1WitnessMsg.externalPort ∧
        pm.externalIp = some c1WitnessMsg.externalIp) ∧
      (c1WitnessMsg.opcode = OPCODE_PEER →
        pm.remotePeerPort = some c1WitnessMsg.remotePeerPort ∧
        pm.remotePeerIp = some c1WitnessMsg.remotePeerIp)) :=
  ⟨by decide, C1_parse_serialize_roundtrip c1WitnessMsg (by decide)⟩

/-! ## Totality of the parser (claim C10) -/

theorem pyOrd_ok (data : List Nat) (i : Nat) (h : i < data.length) :
    pyOrd data i = .ok data[i] := by
  unfold pyOrd
  rw [List.getElem?_eq_getElem h]

theorem length_pySlice (data : List Nat) (a b : Nat) :
    (pySlice data a b).length = min (b - a) (data.length - a) := by
  simp [pySlice]

theorem parse_opcode_common_total (d : List Nat) (pm : ParsedPcpMsg)
    (h : 36 ≤ d.length) :
    ∃ pm1, parse_opcode_common d pm = .ok pm1 ∧ pm1.lifetime = pm.lifetime ∧
      pm1.protocol.isSome ∧ pm1.internalPort.isSome := by
  have h12 : 12 < d.length := by omega
  have h4 : (pySlice d 16 20).length = 4 := by
    rw [length_pySlice]
    omega
  unfold parse_opcode_common
  rw [pyOrd_ok d 12 h12, andThenE_ok]
  unfold unpackHH
  rw [if_pos h4, andThenE_ok]
  exact ⟨_, rfl, by simp, by simp, by simp⟩

theorem parse_opcode_total (d : List Nat) (pm : ParsedPcpMsg)
    (hlife : pm.lifetime.isSome) (hopc : pm.opcode.isSome) :
    ∃ pm1, parse_opcode d pm = .ok pm1 := by
  obtain ⟨opc, hopc'⟩ := Option.isSome_iff_exists.mp hopc
  unfold parse_opcode
  rw [hopc']
  show ∃ pm1, andThenE (pyGetField (some opc)) _ = .ok pm1
  rw [show pyGetField (some opc) = .ok opc from rfl, andThenE_ok]
  by_cases hmap : opc = OPCODE_MAP
  · rw [if_pos hmap]
    unfold parse_opcode_map
    by_cases hlt : d.length < MAP_OPCODE_LENGTH
    · rw [if_pos hlt]
      exact ⟨_, rfl⟩
    · rw [if_neg hlt]
      have h36 : 36 ≤ d.length := by
        simp [MAP_OPCODE_LENGTH] at hlt
        omega
      obtain ⟨pm1, hpm1, hpl, hpp, hpi⟩ := parse_opcode_common_total d pm h36
      rw [hpm1, andThenE_ok]
      obtain ⟨lv, hlv⟩ := Option.isSome_iff_exists.mp (hpl ▸ hlife)
      obtain ⟨pv, hpv⟩ := Option.isSome_iff_exists.mp hpp
      obtain ⟨iv, hiv⟩ := Option.isSome_iff_exists.mp hpi
      rw [hlv, hpv, hiv]
      rw [show pyGetField (some lv) = .ok lv from rfl, andThenE_ok]
      rw [show pyGetField (some pv) = .ok pv from rfl, andThenE_ok]
      rw [show pyGetField (some iv) = .ok iv from rfl, andThenE_ok]
      by_cases hchk : map_lifetime_protocol_port_check lv pv iv
      · rw [if_pos hchk]; exact ⟨_, rfl⟩
      · rw [if_neg hchk]
        by_cases hz : iv = 0
        · rw [if_pos hz]; exact ⟨_, rfl⟩
        · rw [if_neg hz]; exact ⟨_, rfl⟩
  · rw [if_neg hmap]
    by_cases hpeer : opc = OPCODE_PEER
    · rw [if_pos hpeer]
      unfold parse_opcode_peer
      by_cases hlt : d.length < PEER_OPCODE_LENGTH
      · rw [if_pos hlt]
        exact ⟨_, rfl⟩
      · rw [if_neg hlt]
        have h36 : 36 ≤ d.length := by
          simp [PEER_OPCODE_LENGTH] at hlt
          omega
        obtain ⟨pm1, hpm1, _, _, _⟩ := parse_opcode_common_total d pm h36
        rw [hpm1, andThenE_ok]
        have h2 : (pySlice d 36 38).length = 2 := by
          rw [length_pySlice]
          simp [PEER_OPCODE_LENGTH] at hlt
          omega
        unfold unpackH
        rw [if_pos h2, andThenE_ok]
        exact ⟨_, rfl⟩
    · rw [if_neg hpeer]
      exact ⟨_, rfl⟩

theorem parse_request_total (data : List Nat) (srcIp : Nat) (pm0 : ParsedPcpMsg)
    (h2 : 2 ≤ data.length) :
    ∃ pm1, parse_request data srcIp pm0 = .ok pm1 := by
  have h0 : 0 < data.length := by omega
  unfold parse_request
  rw [pyOrd_ok data 0 h0, andThenE_ok]
  by_cases hlt : data.length < COMMON_LENGTH
  · rw [if_pos hlt]
    exact ⟨_, rfl⟩
  · rw [if_neg hlt]
    have h24 : 24 ≤ data.length := by
      simp [COMMON_LENGTH] at hlt
      omega
    have h7 : (pySlice data 1 8).length = 7 := by
      rw [length_pySlice]
      omega
    unfold unpackBHL
    rw [if_pos h7, andThenE_ok]
    by_cases hmem : ((pySlice data 1 8).getD 0 0 &&& 0x7f) ∉ PCP_OPCODES
    · simp only [pyGetField, andThenE]
      rw [if_pos hmem]
      simp only [pyGetField, andThenE]
      apply parse_opcode_total <;> (repeat' split) <;> simp
    · simp only [pyGetField, andThenE]
      rw [if_neg hmem]
      simp only [pyGetField, andThenE]
      apply parse_opcode_total <;> (repeat' split) <;> simp

/-- C10: for every input byte string, of any length and content, and
every source address, PcpMessage.parse terminates without raising an
exception: every length check guards the corresponding field extraction,
so the result is always either None (silent drop) or a message object
carrying a parse_result. -/
theorem C10_parse_never_raises (data : List Nat) (srcIp : Nat) :
    ∃ r : Option ParsedPcpMsg, parse_pcp_message data srcIp = .ok r := by
  unfold parse_pcp_message
  by_cases hmin : data.length < MINIMUM_MESSAGE_LENGTH
  · rw [if_pos hmin]
    exact ⟨_, rfl⟩
  · rw [if_neg hmin]
    have h2 : 2 ≤ data.length := by
      simp [MINIMUM_MESSAGE_LENGTH] at hmin
      omega
    have h1 : 1 < data.length := by omega
    rw [pyOrd_ok data 1 h1, andThenE_ok]
    by_cases hmt : data[1] >>> 7 ≠ PCP_REQUEST
    · rw [if_pos hmt]
      exact ⟨_, rfl⟩
    · rw [if_neg hmt]
      obtain ⟨pm1, hpm1⟩ := parse_request_total data srcIp emptyPcpMsg h2
      rw [hpm1, andThenE_ok]
      by_cases hd : pm1.shouldDiscard
      · rw [if_pos hd]
        exact ⟨_, rfl⟩
      · rw [if_neg hd]
        exact ⟨_, rfl⟩

/-! ## The MAP protocol-zero check (claim C3) -/

theorem andThenE_eq_ok {a b : Type} {x : Except Unit a} {f : a → Except Unit b} {y : b}
    (h : andThenE x f = .ok y) : ∃ v, x = .ok v ∧ f v = .ok y := by
  cases x with
  | error e => simp [andThenE] at h
  | ok v => exact ⟨v, rfl, h⟩

theorem parse_opcode_common_eq (d : List Nat) (pm : ParsedPcpMsg) (h36 : 36 ≤ d.length) :
    parse_opcode_common d pm = .ok { pm with
      mappingNonce := some (pySlice d 0 12),
      protocol := some (d.getD 12 0),
      internalPort := some (packed_str_to_int (pySlice (pySlice d 16 20) 0 2)),
      externalPort := some (packed_str_to_int (pySlice (pySlice d 16 20) 2 4)),
      externalIp := some (packed_str_to_ip_addr (pySlice d 20 36)) } := by
  have h12 : 12 < d.length := by omega
  have h4 : (pySlice d 16 20).length = 4 := by rw [length_pySlice]; omega
  have hgd : d[12] = d.getD 12 0 := by
    simp [List.getD, List.getElem?_eq_getElem h12]
  unfold parse_opcode_common
  rw [pyOrd_ok d 12 h12, andThenE_ok]
  unfold unpackHH
  rw [if_pos h4, andThenE_ok, hgd]

theorem parse_opcode_preserves (d : List Nat) (pm5 pm0 : ParsedPcpMsg)
    (h : parse_opcode d pm5 = .ok pm0) :
    pm0.opcode = pm5.opcode ∧ pm0.lifetime = pm5.lifetime ∧
      pm0.shouldDiscard = pm5.shouldDiscard := by
  unfold parse_opcode at h
  obtain ⟨opc, hopc, h⟩ := andThenE_eq_ok h
  by_cases hmap : opc = OPCODE_MAP
  · rw [if_pos hmap] at h
    unfold parse_opcode_map at h
    by_cases hlen : d.length < MAP_OPCODE_LENGTH
    · rw [if_pos hlen] at h
      simp only [Except.ok.injEq] at h
      rw [← h]
      simp
    · rw [if_neg hlen] at h
      have h36 : 36 ≤ d.length := by
        simp [MAP_OPCODE_LENGTH] at hlen
        omega
      rw [parse_opcode_common_eq d pm5 h36, andThenE_ok] at h
      cases hpl : pm5.lifetime with
      | none =>
          simp only [pyGetField, andThenE, hpl] at h
          simp at h
      | some lv =>
          simp only [pyGetField, andThenE, hpl] at h
          split at h
          · simp only [Except.ok.injEq] at h
            rw [← h]
            simp
          · split at h <;>
              (simp only [Except.ok.injEq] at h; rw [← h]; simp)
  · rw [if_neg hmap] at h
    by_cases hpeer : opc = OPCODE_PEER
    · rw [if_pos hpeer] at h
      unfold parse_opcode_peer at h
      by_cases hlen : d.length < PEER_OPCODE_LENGTH
      · rw [if_pos hlen] at h
        simp only [Except.ok.injEq] at h
        rw [← h]
        simp
      · rw [if_neg hlen] at h
        have h36 : 36 ≤ d.length := by
          simp [PEER_OPCODE_LENGTH] at hlen
          omega
        rw [parse_opcode_common_eq d pm5 h36, andThenE_ok] at h
        obtain ⟨rpp, _, h⟩ := andThenE_eq_ok h
        simp only [Except.ok.injEq] at h
        rw [← h]
        simp
    · rw [if_neg hpeer] at h
      simp only [Except.ok.injEq] at h
      rw [← h]
      simp

theorem parse_opcode_map_malformed (d : List Nat) (pm5 pm0 : ParsedPcpMsg) (l i : Nat)
    (h : parse_opcode d pm5 = .ok pm0)
    (hop : pm0.opcode = some OPCODE_MAP)
    (hl : pm0.lifetime = some l) (hl0 : l ≠ 0)
    (hp : pm0.protocol = some 0)
    (hi : pm0.internalPort = some i) (hi0 : i ≠ 0) :
    pm0.parseResult = MALFORMED_REQUEST := by
  obtain ⟨hpres_op, hpres_lt, _⟩ := parse_opcode_preserves d pm5 pm0 h
  have hop5 : pm5.opcode = some OPCODE_MAP := by rw [← hpres_op, hop]
  have hl5 : pm5.lifetime = some l := by rw [← hpres_lt, hl]
  unfold parse_opcode at h
  rw [hop5] at h
  rw [show pyGetField (some OPCODE_MAP) = Except.ok OPCODE_MAP from rfl, andThenE_ok] at h
  rw [if_pos rfl] at h
  unfold parse_opcode_map at h
  by_cases hlen : d.length < MAP_OPCODE_LENGTH
  · rw [if_pos hlen] at h
    simp only [Except.ok.injEq] at h
    rw [← h]
  · rw [if_neg hlen] at h
    have h36 : 36 ≤ d.length := by
      simp [MAP_OPCODE_LENGTH] at hlen
      omega
    rw [parse_opcode_common_eq d pm5 h36, andThenE_ok] at h
    simp only [pyGetField, andThenE, hl5] at h
    split at h
    · simp only [Except.ok.injEq] at h
      rw [← h]
    next hchk =>
      exfalso
      split at h
      · -- UNSUPP_PROTOCOL branch: the internal port would be zero
        next hz =>
          simp only [Except.ok.injEq] at h
          rw [← h] at hi
          simp at hi
          apply hi0
          rw [← hi]
          exact hz
      · -- no error set: the protocol-zero check would have fired
        simp only [Except.ok.injEq] at h
        apply hchk
        rw [← h] at hp hi
        simp at hp hi
        rw [map_check_iff]
        refine ⟨hl0, ?_, ?_⟩
        · rw [show (d.getD 12 0) = d[12]?.getD 0 by simp [List.getD]]
          exact hp
        · rw [hi]
          exact hi0

/-- C3: a MAP request long enough to carry its opcode payload, with
nonzero lifetime, protocol equal to 0 and nonzero internal port, parses
with parse_result MALFORMED_REQUEST; and the protocol-zero check - the
expression with the misplaced closing parenthesis - fires exactly on
that conjunction, so a MAP with zero lifetime or nonzero protocol is not
marked malformed by this check. -/
theorem C3_map_protocol_zero_check :
    (∀ (data : List Nat) (srcIp : Nat) (pm : ParsedPcpMsg) (l i : Nat),
      parse_pcp_message data srcIp = .ok (some pm) →
      pm.opcode = some OPCODE_MAP →
      pm.lifetime = some l → l ≠ 0 →
      pm.protocol = some 0 →
      pm.internalPort = some i → i ≠ 0 →
      pm.parseResult = MALFORMED_REQUEST) ∧
    (∀ l p i : Nat,
      map_lifetime_protocol_port_check l p i = true ↔ (l ≠ 0 ∧ p = 0 ∧ i ≠ 0)) := by
  constructor
  · intro data srcIp pm l i hparse hop hl hl0 hp hi hi0
    unfold parse_pcp_message at hparse
    split at hparse
    · simp at hparse
    · obtain ⟨b1, _, hparse⟩ := andThenE_eq_ok hparse
      split at hparse
      · simp at hparse
      · obtain ⟨pm0, hreq, hparse⟩ := andThenE_eq_ok hparse
        split at hparse
        · simp at hparse
        next hdisc =>
          simp only [Except.ok.injEq, Option.some.injEq] at hparse
          have htrans : pm.lifetime = pm0.lifetime ∧ pm.protocol = pm0.protocol ∧
              pm.internalPort = pm0.internalPort ∧ pm.opcode = pm0.opcode ∧
              (pm0.parseResult = MALFORMED_REQUEST →
                pm.parseResult = MALFORMED_REQUEST) := by
            rw [← hparse]
            constructor
            · split <;> split <;> simp
            constructor
            · split <;> split <;> simp
            constructor
            · split <;> split <;> simp
            constructor
            · split <;> split <;> simp
            · intro hmal
              split <;> split <;> simp [hmal]
          obtain ⟨htl, htp, hti, hto, htr⟩ := htrans
          apply htr
          -- walk through parse_request to reach parse_opcode
          unfold parse_request at hreq
          obtain ⟨b0, _, hreq⟩ := andThenE_eq_ok hreq
          dsimp only [] at hreq
          split at hreq
          · -- short message: would have been discarded
            exfalso
            simp only [Except.ok.injEq] at hreq
            rw [← hreq] at hdisc
            simp at hdisc
          · obtain ⟨flds, _, hreq⟩ := andThenE_eq_ok hreq
            obtain ⟨opcv, _, hreq⟩ := andThenE_eq_ok hreq
            obtain ⟨cipv, _, hreq⟩ := andThenE_eq_ok hreq
            exact parse_opcode_map_malformed _ _ _ l i hreq
              (by rw [← hto, hop]) (by rw [← htl, hl]) hl0
              (by rw [← htp, hp]) (by rw [← hti, hi]) hi0
  · intro l p i
    exact map_check_iff l p i

/-- The spec example for the protocol-zero rule: MAP with lifetime 300,
protocol 0, internal port 1250. -/
def c3WitnessData : List Nat :=
  serialize_request { c1WitnessMsg with protocol := 0 }

/-- The message parsed back from c3WitnessData. -/
def c3WitnessParsed : ParsedPcpMsg :=
  { version := some 2, messageType := some 0, opcode := some 1,
    lifetime := some 300, pcpClientIp := some 281473913979137,
    mappingNonce := some [1, 2, 3, 4, 100, 255, 142, 17, 10, 9, 2, 4],
    protocol := some 0, internalPort := some 1250, externalPort := some 5555,
    externalIp := some 281473903427585, remotePeerPort := none,
    remotePeerIp := none, parseResult := MALFORMED_REQUEST,
    shouldDiscard := false }

theorem C3_witness :
    parse_pcp_message c3WitnessData 281473913979137 = .ok (some c3WitnessParsed) ∧
    c3WitnessParsed.parseResult = MALFORMED_REQUEST ∧
    (map_lifetime_protocol_port_check 300 0 1250 = true ↔
      ((300 : Nat) ≠ 0 ∧ (0 : Nat) = 0 ∧ (1250 : Nat) ≠ 0)) :=
  ⟨by rfl,
   C3_map_protocol_zero_check.1 c3WitnessData 281473913979137 c3WitnessParsed 300 1250
     (by rfl) (by decide) (by decide) (by decide) (by decide) (by decide) (by decide),
   C3_map_protocol_zero_check.2 300 0 1250⟩

/-- C7: every input of length at least 2 whose message-type bit says
REQUEST and whose total length is under 24 bytes is dropped silently
(parse returns None), including when the version byte is the supported
version 2. -/
theorem C7_short_request_silent_drop (data : List Nat) (srcIp b : Nat)
    (h2 : 2 ≤ data.length) (h24 : data.length < 24)
    (hb : data[1]? = some b) (hreq : b >>> 7 = PCP_REQUEST) :
    parse_pcp_message data srcIp = .ok none := by
  unfold parse_pcp_message
  rw [if_neg (by simp [MINIMUM_MESSAGE_LENGTH]; omega)]
  rw [show pyOrd data 1 = .ok b by unfold pyOrd; rw [hb], andThenE_ok]
  rw [if_neg (by rw [hreq]; simp)]
  have h0 : 0 < data.length := by omega
  unfold parse_request
  rw [pyOrd_ok data 0 h0, andThenE_ok]
  rw [if_pos (by simp [COMMON_LENGTH]; omega)]
  rw [andThenE_ok]
  rw [if_pos (by simp)]

/-- A 10-byte request prefix with supported version 2 and the REQUEST
bit clear, as in the repository test for short messages. -/
def c7WitnessData : List Nat := [2, 1, 0, 0, 0, 0, 1, 44, 0, 0]

theorem C7_witness :
    2 ≤ c7WitnessData.length ∧ c7WitnessData.length < 24 ∧
    c7WitnessData[1]? = some 1 ∧ (1 : Nat) >>> 7 = PCP_REQUEST ∧
    parse_pcp_message c7WitnessData 281473913979137 = .ok none :=
  ⟨by decide, by decide, by decide, by decide,
   C7_short_request_silent_drop c7WitnessData 281473913979137 1
     (by decide) (by decide) (by decide) (by decide)⟩

/-! ## NAT table model (nattable.py)

Python 2 specifics modelled here: str comparison is lexicographic on
byte values (pyStrLt); dict update replaces the value at the existing
key or appends a new binding (dinsert); str(int) is Nat.repr.  The
netaddr library (an external collaborator, out of the repository) is
modelled on IPv4 dotted-quad presentation strings, which is the address
family the NAT pool uses: netaddr.IPAddress parses such a string to its
32-bit value (parseIpv4, none standing for AddrFormatError), addition of
one followed by str produces the dotted quad of the incremented value
(get_incremented_ip, none standing for the netaddr error past
255.255.255.255), and is_ipv4_mapped is false for dotted quads. -/

/-- AddressFamily.IPv4. -/
def AF_IPV4 : Nat := 0x0800

/-- AddressFamily.IPv6. -/
def AF_IPV6 : Nat := 0x86DD

/-- IpUpperProtocol.TCP. -/
def PROTO_TCP : Nat := 0x06

/-- IpUpperProtocol.UDP. -/
def PROTO_UDP : Nat := 0x11

/-- Python 2 lexicographic byte comparison of strings, on char lists. -/
def pyStrLtList : List Char → List Char → Bool
  | [], [] => false
  | [], _ :: _ => true
  | _ :: _, [] => false
  | a :: as_, b :: bs =>
      if a.toNat < b.toNat then true
      else if b.toNat < a.toNat then false
      else pyStrLtList as_ bs

/-- Python 2 string less-than. -/
def pyStrLt (s t : String) : Bool := pyStrLtList s.toList t.toList

/-- One decimal digit. -/
def isDigitChar (c : Char) : Bool := decide (48 ≤ c.toNat ∧ c.toNat ≤ 57)

/-- Decimal value of a nonempty all-digit character list. -/
def decValOf (cs : List Char) : Option Nat :=
  if cs = [] then none
  else if cs.all isDigitChar then
    some (cs.foldl (fun a c => a * 10 + (c.toNat - 48)) 0)
  else none

/-- Split a character list on dots. -/
def splitDots : List Char → List (List Char)
  | [] => [[]]
  | c :: t =>
      if c = '.' then [] :: splitDots t
      else
        match splitDots t with
        | [] => [[c]]
        | h :: r => (c :: h) :: r

/-- netaddr.IPAddress on an IPv4 dotted-quad presentation string,
returning the 32-bit value; none models AddrFormatError. -/
def parseIpv4 (s : String) : Option Nat :=
  match splitDots s.toList with
  | [p1, p2, p3, p4] =>
      match decValOf p1, decValOf p2, decValOf p3, decValOf p4 with
      | some a, some b, some c, some d =>
          if a ≤ 255 ∧ b ≤ 255 ∧ c ≤ 255 ∧ d ≤ 255 then
            some (((a * 256 + b) * 256 + c) * 256 + d)
          else none
      | _, _, _, _ => none
  | _ => none

/-- The dotted-quad presentation of a 32-bit value, as netaddr prints
it. -/
def natToIpv4Str (n : Nat) : String :=
  Nat.repr (n / 16777216 % 256) ++ "." ++ Nat.repr (n / 65536 % 256) ++ "." ++
    Nat.repr (n / 256 % 256) ++ "." ++ Nat.repr (n % 256)

/-- Model of NatTable._get_incremented_ip:
str(netaddr.IPAddress(ip) + 1); none models the netaddr error on a
malformed address or on overflow past 255.255.255.255. -/
def get_incremented_ip (ip : String) : Option String :=
  match parseIpv4 ip with
  | none => none
  | some v => if v + 1 < 4294967296 then some (natToIpv4Str (v + 1)) else none

/-! ### Python dict as an association list -/

/-- Dict lookup (first binding of the key). -/
def dlookup {A : Type} : List (String × A) → String → Option A
  | [], _ => none
  | (k, v) :: t, key => if k = key then some v else dlookup t key

/-- Dict assignment: replace the value at an existing key, else append a
new binding. -/
def dinsert {A : Type} : List (String × A) → String → A → List (String × A)
  | [], key, v => [(key, v)]
  | (k, w) :: t, key, v =>
      if k = key then (k, v) :: t else (k, w) :: dinsert t key v

/-- Dict deletion of the binding of a key (the first one). -/
def ddel {A : Type} : List (String × A) → String → List (String × A)
  | [], _ => []
  | (k, w) :: t, key => if k = key then t else (k, w) :: ddel t key

theorem dlookup_dinsert {A : Type} (d : List (String × A)) (k k' : String) (v : A) :
    dlookup (dinsert d k v) k' = if k = k' then some v else dlookup d k' := by
  induction d with
  | nil =>
      by_cases h : k = k' <;> simp [dinsert, dlookup, h]
  | cons p t ih =>
      obtain ⟨kp, vp⟩ := p
      by_cases h1 : kp = k
      · subst h1
        by_cases h2 : kp = k' <;> simp [dinsert, dlookup, h2]
      · by_cases h2 : kp = k'
        · subst h2
          have hkk : ¬ (k = kp) := fun h => h1 h.symm
          simp [dinsert, dlookup, h1, hkk]
        · simp [dinsert, dlookup, h1, h2, ih]

theorem dlookup_eq_none {A : Type} {d : List (String × A)} {k : String}
    (h : k ∉ d.map Prod.fst) : dlookup d k = none := by
  induction d with
  | nil => rfl
  | cons p t ih =>
      obtain ⟨kp, vp⟩ := p
      simp only [List.map_cons, List.mem_cons] at h
      push_neg at h
      have h1 : ¬ (kp = k) := fun hc => h.1 hc.symm
      simp [dlookup, h1, ih h.2]

theorem dlookup_ddel_ne {A : Type} (d : List (String × A)) (k k' : String) (h : k' ≠ k) :
    dlookup (ddel d k) k' = dlookup d k' := by
  induction d with
  | nil => simp [ddel]
  | cons p t ih =>
      obtain ⟨kp, vp⟩ := p
      by_cases h1 : kp = k
      · subst h1
        have h2 : ¬ (kp = k') := fun hc => h hc.symm
        simp [ddel, dlookup, h2]
      · by_cases h2 : kp = k'
        · subst h2
          simp [ddel, dlookup, h1]
        · simp [ddel, dlookup, h1, h2, ih]

theorem ddel_sublist {A : Type} (d : List (String × A)) (k : String) :
    (ddel d k).Sublist d := by
  induction d with
  | nil => simp [ddel]
  | cons p t ih =>
      obtain ⟨kp, vp⟩ := p
      by_cases h1 : kp = k
      · rw [show ddel ((kp, vp) :: t) k = t by simp [ddel, h1]]
        exact List.sublist_cons_self _ _
      · rw [show ddel ((kp, vp) :: t) k = (kp, vp) :: ddel t k by simp [ddel, h1]]
        exact List.Sublist.cons₂ _ ih

theorem dlookup_ddel_self {A : Type} (d : List (String × A)) (k : String)
    (hnd : (d.map Prod.fst).Nodup) : dlookup (ddel d k) k = none := by
  induction d with
  | nil => rfl
  | cons p t ih =>
      obtain ⟨kp, vp⟩ := p
      simp only [List.map_cons, List.nodup_cons] at hnd
      by_cases h1 : kp = k
      · subst h1
        simp only [ddel, if_pos rfl]
        exact dlookup_eq_none hnd.1
      · simp [ddel, h1, dlookup, ih hnd.2]

theorem dlookup_mem {A : Type} {d : List (String × A)} {k : String} {v : A}
    (h : dlookup d k = some v) : (k, v) ∈ d := by
  induction d with
  | nil => simp [dlookup] at h
  | cons p t ih =>
      obtain ⟨kp, vp⟩ := p
      by_cases h1 : kp = k
      · subst h1
        simp [dlookup] at h
        subst h
        simp
      · simp only [dlookup, if_neg h1] at h
        simp [ih h]

theorem mem_dlookup {A : Type} {d : List (String × A)} {k : String} {v : A}
    (hnd : (d.map Prod.fst).Nodup) (h : (k, v) ∈ d) : dlookup d k = some v := by
  induction d with
  | nil => simp at h
  | cons p t ih =>
      obtain ⟨kp, vp⟩ := p
      simp only [List.map_cons, List.nodup_cons] at hnd
      rcases List.mem_cons.mp h with h1 | h1
      · cases h1
        simp [dlookup]
      · by_cases h2 : kp = k
        · exfalso
          subst h2
          exact hnd.1 (by simpa using List.mem_map_of_mem Prod.fst h1)
        · simp [dlookup, h2, ih hnd.2 h1]

theorem mem_dinsert {A : Type} {d : List (String × A)} {k k' : String} {v v' : A}
    (hnd : (d.map Prod.fst).Nodup) :
    (k', v') ∈ dinsert d k v ↔ ((k' = k ∧ v' = v) ∨ ((k', v') ∈ d ∧ k' ≠ k)) := by
  induction d with
  | nil =>
      constructor
      · intro h
        simp [dinsert] at h
        exact Or.inl ⟨h.1, h.2⟩
      · intro h
        rcases h with ⟨h1, h2⟩ | ⟨h1, _⟩
        · simp [dinsert, h1, h2]
        · simp at h1
  | cons p t ih =>
      obtain ⟨kp, vp⟩ := p
      simp only [List.map_cons, List.nodup_cons] at hnd
      by_cases h1 : kp = k
      · subst h1
        simp only [dinsert, if_pos rfl]
        constructor
        · intro h
          rcases List.mem_cons.mp h with h2 | h2
          · simp only [Prod.mk.injEq] at h2
            exact Or.inl h2
          · refine Or.inr ⟨List.mem_cons_of_mem _ h2, ?_⟩
            intro hc
            subst hc
            exact hnd.1 (by simpa using List.mem_map_of_mem Prod.fst h2)
        · intro h
          rcases h with ⟨hk, hv⟩ | ⟨h2, hne⟩
          · subst hk
            subst hv
            simp
          · rcases List.mem_cons.mp h2 with h3 | h3
            · simp only [Prod.mk.injEq] at h3
              exact absurd h3.1 hne
            · exact List.mem_cons_of_mem _ h3
      · simp only [dinsert, if_neg h1]
        constructor
        · intro h
          rcases List.mem_cons.mp h with h2 | h2
          · simp only [Prod.mk.injEq] at h2
            obtain ⟨hk, hv⟩ := h2
            subst hk
            subst hv
            exact Or.inr ⟨List.mem_cons_self _ _, fun hc => h1 hc⟩
          · rcases (ih hnd.2).mp h2 with h3 | ⟨h3, h4⟩
            · exact Or.inl h3
            · exact Or.inr ⟨List.mem_cons_of_mem _ h3, h4⟩
        · intro h
          rcases h with ⟨hk, hv⟩ | ⟨h2, hne⟩
          · subst hk
            subst hv
            exact List.mem_cons_of_mem _ ((ih hnd.2).mpr (Or.inl ⟨rfl, rfl⟩))
          · rcases List.mem_cons.mp h2 with h3 | h3
            · simp only [Prod.mk.injEq] at h3
              obtain ⟨hk, hv⟩ := h3
              subst hk
              subst hv
              simp
            · exact List.mem_cons_of_mem _ ((ih hnd.2).mpr (Or.inr ⟨h3, hne⟩))

theorem mem_ddel {A : Type} {d : List (String × A)} {k k' : String} {v' : A}
    (hnd : (d.map Prod.fst).Nodup) :
    (k', v') ∈ ddel d k ↔ ((k', v') ∈ d ∧ k' ≠ k) := by
  constructor
  · intro h
    refine ⟨(ddel_sublist d k).mem h, ?_⟩
    intro hc
    have hsub := ((ddel_sublist d k).map Prod.fst).nodup hnd
    have hl := mem_dlookup hsub h
    rw [hc, dlookup_ddel_self d k hnd] at hl
    simp at hl
  · rintro ⟨h1, h2⟩
    have hl := mem_dlookup hnd h1
    have h3 : dlookup (ddel d k) k' = some v' := by
      rw [dlookup_ddel_ne d k k' h2]
      exact hl
    exact dlookup_mem h3

theorem nodup_dinsert {A : Type} (d : List (String × A)) (k : String) (v : A)
    (hnd : (d.map Prod.fst).Nodup) : ((dinsert d k v).map Prod.fst).Nodup := by
  induction d with
  | nil => simp [dinsert]
  | cons p t ih =>
      obtain ⟨kp, vp⟩ := p
      simp only [List.map_cons, List.nodup_cons] at hnd
      by_cases h1 : kp = k
      · subst h1
        rw [show dinsert ((kp, vp) :: t) kp v = (kp, v) :: t by simp [dinsert]]
        simp only [List.map_cons, List.nodup_cons]
        exact ⟨hnd.1, hnd.2⟩
      · simp only [dinsert, if_neg h1, List.map_cons, List.nodup_cons]
        refine ⟨?_, ih hnd.2⟩
        intro hc
        rcases List.mem_map.mp hc with ⟨⟨kq, vq⟩, hq, hkq⟩
        simp only [] at hkq
        rcases (mem_dinsert hnd.2).mp hq with ⟨hk, _⟩ | ⟨hq2, _⟩
        · apply h1
          rw [← hkq]
          exact hk
        · apply hnd.1
          rw [← hkq]
          simpa using List.mem_map_of_mem Prod.fst hq2

theorem nodup_ddel {A : Type} (d : List (String × A)) (k : String)
    (hnd : (d.map Prod.fst).Nodup) : ((ddel d k).map Prod.fst).Nodup :=
  (((ddel_sublist d k).map Prod.fst).nodup hnd)

/-! ### NAT table state and operations -/

/-- A NatTableEntry (nattable.py). -/
structure NatTableEntry : Type where
  address_family : Nat
  protocol : Nat
  internal_ip : String
  internal_port : Nat
  external_ip : String
  external_port : Nat
  lifetime : Nat
deriving DecidableEq

/-- The NAT pool configuration parameters read by NatTable (the two
allocation-type parameters are not modelled: the source implements only
ROUND_ROBIN and never reads them). -/
structure NatPoolConfig : Type where
  internal_ip_low_end : String
  internal_ip_high_end : String
  internal_port_low_end : Nat
  internal_port_high_end : Nat
  external_ip_low_end : String
  external_ip_high_end : String
  external_port_low_end : Nat
  external_port_high_end : Nat
deriving DecidableEq

/-- The mutable state of a NatTable object. -/
structure NatState : Type where
  table : List (String × NatTableEntry)
  table_external : List (String × NatTableEntry)
  allocated_external_ips_and_ports : List (String × Nat)
  last_external_ip : String
deriving DecidableEq

/-- A fresh NatTable (the constructor). -/
def initNatTable (cfg : NatPoolConfig) : NatState :=
  { table := [], table_external := [],
    allocated_external_ips_and_ports := [],
    last_external_ip := cfg.external_ip_low_end }

/-- NatTable._get_key: string concatenation of the address and the
str() of the port. -/
def get_key (ip : String) (port : Nat) : String := ip ++ Nat.repr port

/-- str() of an optional address: Python prints None as the string
None. -/
def pyStrOfOptStr : Option String → String
  | none => "None"
  | some s => s

/-- str() of an optional port. -/
def pyStrOfOptNat : Option Nat → String
  | none => "None"
  | some n => Nat.repr n

/-- NatTable._get_key applied to possibly-None arguments, as
find_entry_by_external receives them inside add_entry. -/
def get_key_opt (ip : Option String) (port : Option Nat) : String :=
  pyStrOfOptStr ip ++ pyStrOfOptNat port

/-- NatTable.find_entry. -/
def find_entry (s : NatState) (ip : String) (port : Nat) : Option NatTableEntry :=
  dlookup s.table (get_key ip port)

/-- NatTable.find_entry_by_external. -/
def find_entry_by_external (s : NatState) (ip : String) (port : Nat) :
    Option NatTableEntry :=
  dlookup s.table_external (get_key ip port)

/-- NatTable.find_entry_by_external on the possibly-None suggested
endpoint. -/
def find_entry_by_external_opt (s : NatState) (ip : Option String) (port : Option Nat) :
    Option NatTableEntry :=
  dlookup s.table_external (get_key_opt ip port)

/-- NatTable._allocate_ip_and_port: round-robin allocation with the port
as the inner loop.  The error value models the netaddr exception from
_get_incremented_ip; note that the port counter of the exhausted address
has already been advanced when it is raised. -/
def allocate_ip_and_port (cfg : NatPoolConfig) (s : NatState) (external_ip : Option String) :
    (Except String (String × Nat)) × NatState :=
  let ip := match external_ip with
            | none => s.last_external_ip
            | some x => x
  match dlookup s.allocated_external_ips_and_ports ip with
  | none =>
      (.ok (ip, cfg.external_port_low_end),
       { s with allocated_external_ips_and_ports :=
           dinsert s.allocated_external_ips_and_ports ip cfg.external_port_low_end })
  | some last =>
      let v := last + 1
      let a1 := dinsert s.allocated_external_ips_and_ports ip v
      let s1 := { s with allocated_external_ips_and_ports := a1 }
      if cfg.external_port_high_end < v then
        match get_incremented_ip ip with
        | none => (.error "netaddr error while incrementing the external address", s1)
        | some ip2 =>
            (.ok (ip2, cfg.external_port_low_end),
             { s1 with
               allocated_external_ips_and_ports :=
                 dinsert s1.allocated_external_ips_and_ports ip2 cfg.external_port_low_end,
               last_external_ip := ip2 })
      else
        (.ok (ip, v), s1)

/-- NatTable._allocate_ip. -/
def allocate_ip (s : NatState) : String := s.last_external_ip

/-- NatTable._allocate_entry. -/
def allocate_entry (cfg : NatPoolConfig) (s : NatState)
    (external_ip : Option String) (external_port : Option Nat) :
    (Except String (String × Nat)) × NatState :=
  match external_ip, external_port with
  | none, none => allocate_ip_and_port cfg s none
  | some ip, none => allocate_ip_and_port cfg s (some ip)
  | none, some p => (.ok (allocate_ip s, p), s)
  | some ip, some p => (.ok (ip, p), s)

/-- NatTable._add_entry: insert into the internal index if the internal
key is fresh, and then unconditionally into the external index;
otherwise raise ValueError. -/
def add_entry_raw (s : NatState) (e : NatTableEntry) : (Except String Unit) × NatState :=
  let key := get_key e.internal_ip e.internal_port
  match dlookup s.table key with
  | none =>
      let s1 := { s with table := dinsert s.table key e }
      (.ok (),
       { s1 with table_external :=
           dinsert s1.table_external (get_key e.external_ip e.external_port) e })
  | some _ => (.error "cannot add a NAT table entry: entry already exists", s)

/-- The normalization of the suggested external address at the top of
NatTable.add_entry: empty and all-zero addresses and addresses outside
the pool range (a Python 2 string comparison) are replaced by None; a
string netaddr cannot parse raises.  When the zero check has already
produced None, the Python comparison None < low is true and the value
stays None. -/
def normalize_suggested_external_ip (cfg : NatPoolConfig) (ip : Option String) :
    Except String (Option String) :=
  match ip with
  | none => .ok none
  | some str =>
      if str = "" then .ok none
      else
        match parseIpv4 str with
        | none => .error "netaddr AddrFormatError"
        | some v =>
            if v = 0 then .ok none
            else if pyStrLt str cfg.external_ip_low_end ||
                pyStrLt cfg.external_ip_high_end str then .ok none
            else .ok (some str)

/-- The normalization of the suggested external port in
NatTable.add_entry: zero and out-of-range ports are replaced by None. -/
def normalize_suggested_external_port (cfg : NatPoolConfig) (p : Option Nat) : Option Nat :=
  match p with
  | none => none
  | some port =>
      if port = 0 then none
      else if port < cfg.external_port_low_end ∨ cfg.external_port_high_end < port then none
      else some port

/-- NatTable.add_entry. -/
def add_entry (cfg : NatPoolConfig) (s : NatState) (internal_ip : String)
    (internal_port lifetime : Nat) (external_ip : Option String)
    (external_port : Option Nat) (protocol address_family : Nat) :
    (Except String NatTableEntry) × NatState :=
  match normalize_suggested_external_ip cfg external_ip with
  | .error e => (.error e, s)
  | .ok ip1 =>
      let port1 := normalize_suggested_external_port cfg external_port
      let sugg := if (find_entry_by_external_opt s ip1 port1).isSome then
                    (none, none)
                  else (ip1, port1)
      match allocate_entry cfg s sugg.1 sugg.2 with
      | (.error e, s1) => (.error e, s1)
      | (.ok (eip, eport), s1) =>
          let entry : NatTableEntry :=
            { address_family := address_family, protocol := protocol,
              internal_ip := internal_ip, internal_port := internal_port,
              external_ip := eip, external_port := eport, lifetime := lifetime }
          match add_entry_raw s1 entry with
          | (.ok _, s2) => (.ok entry, s2)
          | (.error e, s2) => (.error e, s2)

/-- NatTable.update_entry_lifetime: a replacement entry with the new
lifetime is stored under the internal key of the arguments and the
external key of the old entry; a missing entry raises KeyError. -/
def update_entry_lifetime (s : NatState) (internal_ip : String)
    (internal_port lifetime : Nat) : (Except String NatTableEntry) × NatState :=
  match dlookup s.table (get_key internal_ip internal_port) with
  | none => (.error "KeyError", s)
  | some entry =>
      let new_entry := { entry with lifetime := lifetime }
      (.ok new_entry,
       { s with
         table := dinsert s.table (get_key internal_ip internal_port) new_entry,
         table_external :=
           dinsert s.table_external (get_key entry.external_ip entry.external_port)
             new_entry })

/-- NatTable.remove_entry: delete from the internal index first, then
from the external index; the second deletion raises KeyError when the
external key of the found entry is not present there. -/
def remove_entry (s : NatState) (internal_ip : String) (internal_port : Nat) :
    (Except String Unit) × NatState :=
  match find_entry s internal_ip internal_port with
  | none => (.ok (), s)
  | some entry =>
      let s1 := { s with table := ddel s.table (get_key internal_ip internal_port) }
      if (dlookup s1.table_external
          (get_key entry.external_ip entry.external_port)).isSome then
        (.ok (),
         { s1 with table_external :=
                     ddel s1.table_external
                       (get_key entry.external_ip entry.external_port) })
      else
        (.error "KeyError", s1)

/-- NatTable.remove_entry_by_external: delete from the internal index
under the internal key of the found entry (KeyError when absent, before
any mutation), then from the external index. -/
def remove_entry_by_external (s : NatState) (external_ip : String) (external_port : Nat) :
    (Except String Unit) × NatState :=
  match find_entry_by_external s external_ip external_port with
  | none => (.ok (), s)
  | some entry =>
      if (dlookup s.table (get_key entry.internal_ip entry.internal_port)).isSome then
        let s1 := { s with
          table := ddel s.table (get_key entry.internal_ip entry.internal_port) }
        (.ok (),
         { s1 with table_external :=
                     ddel s1.table_external (get_key external_ip external_port) })
      else
        (.error "KeyError", s)

/-- One NatTable operation of the kinds claim C2 ranges over; add
carries no suggested external endpoint. -/
inductive NatOp : Type
  | add (internal_ip : String) (internal_port lifetime protocol address_family : Nat)
  | updateLifetime (internal_ip : String) (internal_port lifetime : Nat)
  | removeInternal (internal_ip : String) (internal_port : Nat)
  | removeExternal (external_ip : String) (external_port : Nat)

/-- Apply one operation; on a raised exception the state is whatever the
partially executed method left behind. -/
def natStep (cfg : NatPoolConfig) (s : NatState) : NatOp → NatState
  | .add iip ipt lt pr af => (add_entry cfg s iip ipt lt none none pr af).2
  | .updateLifetime iip ipt lt => (update_entry_lifetime s iip ipt lt).2
  | .removeInternal iip ipt => (remove_entry s iip ipt).2
  | .removeExternal eip ept => (remove_entry_by_external s eip ept).2

/-- Run a sequence of operations on a state. -/
def runNatOps (cfg : NatPoolConfig) (s : NatState) (ops : List NatOp) : NatState :=
  ops.foldl (natStep cfg) s

/-! ### C9: NAT key collisions -/

/-- The NAT pool configuration of the test suite (the two
allocation-type parameters are omitted, as in NatPoolConfig). -/
def testNatCfg : NatPoolConfig :=
  { internal_ip_low_end := "172.16.0.1", internal_ip_high_end := "172.16.255.254",
    internal_port_low_end := 1, internal_port_high_end := 65535,
    external_ip_low_end := "200.0.0.1", external_ip_high_end := "200.0.255.254",
    external_port_low_end := 49152, external_port_high_end := 65535 }

/-- The entry produced by the first add_entry call in the C9 scenario. -/
def c9Entry : NatTableEntry :=
  { address_family := AF_IPV4, protocol := PROTO_TCP,
    internal_ip := "10.0.0.1", internal_port := 23,
    external_ip := "200.0.0.1", external_port := 49152, lifetime := 3600 }

/-- The table state after adding the mapping for 10.0.0.1 port 23. -/
def c9S1 : NatState :=
  (add_entry testNatCfg (initNatTable testNatCfg) "10.0.0.1" 23 3600 none none
    PROTO_TCP AF_IPV4).2

/-- C9: the pairs (10.0.0.1, 23) and (10.0.0.12, 3) are distinct but
share the NatTable key 10.0.0.123, because keys are built by string
concatenation; after add_entry succeeds for the first pair, find_entry
on the second pair returns the first entry, and add_entry for the
second pair raises the entry-already-exists ValueError although that
pair was never added. -/
theorem C9_string_key_collision :
    (("10.0.0.1", 23) : String × Nat) ≠ ("10.0.0.12", 3) ∧
    get_key "10.0.0.1" 23 = "10.0.0.123" ∧
    get_key "10.0.0.12" 3 = "10.0.0.123" ∧
    (add_entry testNatCfg (initNatTable testNatCfg) "10.0.0.1" 23 3600 none none
      PROTO_TCP AF_IPV4).1 = .ok c9Entry ∧
    c9Entry.internal_ip = "10.0.0.1" ∧ c9Entry.internal_port = 23 ∧
    find_entry c9S1 "10.0.0.12" 3 = some c9Entry ∧
    (add_entry testNatCfg c9S1 "10.0.0.12" 3 7200 none none
      PROTO_TCP AF_IPV4).1 =
      .error "cannot add a NAT table entry: entry already exists" :=
  ⟨by decide, rfl, rfl, rfl, rfl, rfl, rfl, rfl⟩

/-! ### C4: round-robin allocation -/

/-- C4: the allocator used by add_entry when no usable suggested
endpoint remains is round-robin with the port as the inner loop: a
first allocation on an address yields external_port_low_end, a
subsequent allocation yields the previous port plus one while that does
not exceed external_port_high_end, and past the high end the address is
incremented, the port resets to external_port_low_end and the
last_external_ip cursor moves to the new address. -/
theorem C4_round_robin_allocation (cfg : NatPoolConfig) (s : NatState) :
    (∀ iip ipt lt pr af,
      add_entry cfg s iip ipt lt none none pr af =
        (match allocate_ip_and_port cfg s none with
         | (.error e, s1) => (.error e, s1)
         | (.ok (eip, eport), s1) =>
             let entry : NatTableEntry :=
               { address_family := af, protocol := pr,
                 internal_ip := iip, internal_port := ipt,
                 external_ip := eip, external_port := eport, lifetime := lt }
             match add_entry_raw s1 entry with
             | (.ok _, s2) => (.ok entry, s2)
             | (.error e, s2) => (.error e, s2))) ∧
    (dlookup s.allocated_external_ips_and_ports s.last_external_ip = none →
      (allocate_ip_and_port cfg s none).1 =
        .ok (s.last_external_ip, cfg.external_port_low_end)) ∧
    (∀ last,
      dlookup s.allocated_external_ips_and_ports s.last_external_ip = some last →
      last + 1 ≤ cfg.external_port_high_end →
      (allocate_ip_and_port cfg s none).1 = .ok (s.last_external_ip, last + 1) ∧
      (allocate_ip_and_port cfg s none).2.last_external_ip = s.last_external_ip) ∧
    (∀ last ip2,
      dlookup s.allocated_external_ips_and_ports s.last_external_ip = some last →
      cfg.external_port_high_end < last + 1 →
      get_incremented_ip s.last_external_ip = some ip2 →
      (allocate_ip_and_port cfg s none).1 = .ok (ip2, cfg.external_port_low_end) ∧
      (allocate_ip_and_port cfg s none).2.last_external_ip = ip2 ∧
      dlookup (allocate_ip_and_port cfg s none).2.allocated_external_ips_and_ports ip2 =
        some cfg.external_port_low_end) := by
  refine ⟨?_, ?_, ?_, ?_⟩
  · intro iip ipt lt pr af
    simp only [add_entry, normalize_suggested_external_ip, normalize_suggested_external_port,
      ite_self, allocate_entry]
  · intro h
    simp only [allocate_ip_and_port, h]
  · intro last h hle
    simp only [allocate_ip_and_port, h]
    rw [if_neg (by omega)]
    exact ⟨rfl, rfl⟩
  · intro last ip2 h hgt hip
    simp only [allocate_ip_and_port, h]
    rw [if_pos hgt, hip]
    refine ⟨rfl, rfl, ?_⟩
    rw [dlookup_dinsert]
    simp

/-- A pool of one port per address: the test configuration with the
external port range collapsed to 49152. -/
def c4Cfg : NatPoolConfig := { testNatCfg with external_port_high_end := 49152 }

/-- The table state after one add_entry on the pool-of-one table. -/
def c4S1 : NatState :=
  (add_entry c4Cfg (initNatTable c4Cfg) "172.16.1.1" 2000 3600 none none
    PROTO_TCP AF_IPV4).2

/-- With a one-port-per-address pool the first allocation yields
200.0.0.1 port 49152 and the second yields 200.0.0.2 port 49152 with
the cursor moved to 200.0.0.2. -/
theorem C4_witness :
    (allocate_ip_and_port c4Cfg (initNatTable c4Cfg) none).1 = .ok ("200.0.0.1", 49152) ∧
    (allocate_ip_and_port c4Cfg c4S1 none).1 = .ok ("200.0.0.2", 49152) ∧
    (allocate_ip_and_port c4Cfg c4S1 none).2.last_external_ip = "200.0.0.2" := by
  refine ⟨?_, ?_, ?_⟩
  · exact (C4_round_robin_allocation c4Cfg (initNatTable c4Cfg)).2.1 rfl
  · exact ((C4_round_robin_allocation c4Cfg c4S1).2.2.2 49152 "200.0.0.2" rfl
      (by decide) rfl).1
  · exact ((C4_round_robin_allocation c4Cfg c4S1).2.2.2 49152 "200.0.0.2" rfl
      (by decide) rfl).2.1

/-! ### C8: FlowTableHelper and the controller pipeline -/

/-- Lookup in an int-keyed Python dict. -/
def nlookup {A : Type} : List (Nat × A) → Nat → Option A
  | [], _ => none
  | (k, v) :: t, key => if k = key then some v else nlookup t key

/-- Assignment in an int-keyed Python dict. -/
def ninsert {A : Type} : List (Nat × A) → Nat → A → List (Nat × A)
  | [], key, v => [(key, v)]
  | (k, w) :: t, key, v =>
      if k = key then (k, v) :: t else (k, w) :: ninsert t key v

/-- The state of a dphelper.FlowTableHelper object: the name-to-ID
OrderedDict, the list snapshot of its values taken in init, and the
ID-to-index dict built from that snapshot. -/
structure FlowTableHelper : Type where
  flow_tables : List (String × Nat)
  flow_table_ids : List Nat
  flow_table_ids_and_indexes : List (Nat × Nat)
deriving DecidableEq

/-- FlowTableHelper.init: IDs are assigned sequentially from
starting_index in list order; the values snapshot and the ID-to-index
dict are computed once here. -/
def flowTableHelperInit (flow_table_names : List String) (starting_index : Nat) :
    FlowTableHelper :=
  let flow_tables :=
    flow_table_names.enum.foldl (fun d p => dinsert d p.2 (p.1 + starting_index)) []
  let flow_table_ids := flow_tables.map Prod.snd
  { flow_tables := flow_tables,
    flow_table_ids := flow_table_ids,
    flow_table_ids_and_indexes :=
      flow_table_ids.enum.foldl (fun d p => ninsert d p.2 p.1) [] }

/-- FlowTableHelper.getitem: the ID of a flow table given its name;
KeyError when absent. -/
def flowTableGet (h : FlowTableHelper) (table_name : String) : Except String Nat :=
  match dlookup h.flow_tables table_name with
  | some table_id => .ok table_id
  | none => .error "KeyError"

/-- FlowTableHelper.setitem: only the name-to-ID dict is updated; the
values snapshot and the ID-to-index dict are left stale. -/
def flowTableSet (h : FlowTableHelper) (table_name : String) (table_id : Nat) :
    FlowTableHelper :=
  { h with flow_tables := dinsert h.flow_tables table_name table_id }

/-- FlowTableHelper.next_table_id.  A string argument that is not a
known name leaves the caught KeyError behind a string table_id, which
then fails the membership test in the int-keyed index dict. -/
def next_table_id (h : FlowTableHelper) (arg : Sum String Nat) : Except String Nat :=
  let resolved : Option Nat :=
    match arg with
    | .inl name => dlookup h.flow_tables name
    | .inr tid => some tid
  match resolved with
  | none => .error "invalid table ID"
  | some table_id =>
      if nlookup h.flow_table_ids_and_indexes table_id = none then
        .error "invalid table ID"
      else
        match h.flow_table_ids.getLast? with
        | none => .error "IndexError"
        | some lastId =>
            if lastId ≤ table_id then .error "no next table exists"
            else
              match nlookup h.flow_table_ids_and_indexes table_id with
              | none => .error "invalid table ID"
              | some index =>
                  match h.flow_table_ids[index + 1]? with
                  | some next => .ok next
                  | none => .error "IndexError"

/-- The five flow table names of PcpSdnApp, in pipeline order. -/
def pcpSdnFlowTableNames : List String :=
  ["pcp_message_forwarding", "nat_port_match", "nat_internal_to_external",
   "nat_external_to_internal", "packet_forwarding"]

/-- The flow-table helper built in PcpSdnApp.init: the five tables, then
arp_forwarding and mac_overwriting added as aliases of the ID of
pcp_message_forwarding. -/
def pcpSdnFlowTables : Except String FlowTableHelper :=
  let h0 := flowTableHelperInit pcpSdnFlowTableNames 0
  match flowTableGet h0 "pcp_message_forwarding" with
  | .error e => .error e
  | .ok tid =>
      let h1 := flowTableSet h0 "arp_forwarding" tid
      match flowTableGet h1 "pcp_message_forwarding" with
      | .error e => .error e
      | .ok tid2 => .ok (flowTableSet h1 "mac_overwriting" tid2)

/-- The concrete helper state after PcpSdnApp.init. -/
def c8Helper : FlowTableHelper :=
  { flow_tables :=
      [("pcp_message_forwarding", 0), ("nat_port_match", 1),
       ("nat_internal_to_external", 2), ("nat_external_to_internal", 3),
       ("packet_forwarding", 4), ("arp_forwarding", 0), ("mac_overwriting", 0)],
    flow_table_ids := [0, 1, 2, 3, 4],
    flow_table_ids_and_indexes := [(0, 0), (1, 1), (2, 2), (3, 3), (4, 4)] }

instance {E A : Type} [DecidableEq E] [DecidableEq A] : DecidableEq (Except E A) :=
  fun x y =>
    match x, y with
    | .ok a, .ok b => if h : a = b then .isTrue (by rw [h]) else .isFalse (by simp [h])
    | .error a, .error b => if h : a = b then .isTrue (by rw [h]) else .isFalse (by simp [h])
    | .ok _, .error _ => .isFalse (by simp)
    | .error _, .ok _ => .isFalse (by simp)

/-- C8: in the controller pipeline the five tables get IDs 0 through 4,
arp_forwarding and mac_overwriting are aliases of the ID of
pcp_message_forwarding, and next_table_id follows the position in the
canonical ID sequence recorded at construction, so both aliases resolve
to the ID of nat_port_match. -/
theorem C8_next_table_by_index :
    pcpSdnFlowTables = .ok c8Helper ∧
    flowTableGet c8Helper "pcp_message_forwarding" = .ok 0 ∧
    flowTableGet c8Helper "nat_port_match" = .ok 1 ∧
    flowTableGet c8Helper "nat_internal_to_external" = .ok 2 ∧
    flowTableGet c8Helper "nat_external_to_internal" = .ok 3 ∧
    flowTableGet c8Helper "packet_forwarding" = .ok 4 ∧
    flowTableGet c8Helper "arp_forwarding" = .ok 0 ∧
    flowTableGet c8Helper "mac_overwriting" = .ok 0 ∧
    c8Helper.flow_table_ids = [0, 1, 2, 3, 4] ∧
    (∀ i, i < 4 →
      next_table_id c8Helper (Sum.inr (c8Helper.flow_table_ids.getD i 0)) =
        .ok (c8Helper.flow_table_ids.getD (i + 1) 0)) ∧
    next_table_id c8Helper (Sum.inl "arp_forwarding") = .ok 1 ∧
    next_table_id c8Helper (Sum.inl "mac_overwriting") = .ok 1 := by
  decide

/-- The first step of the pipeline: from the table with the ID at index
0 the next table is the one with the ID at index 1. -/
theorem C8_witness :
    next_table_id c8Helper (Sum.inr (c8Helper.flow_table_ids.getD 0 0)) =
      .ok (c8Helper.flow_table_ids.getD 1 0) := by
  have h := C8_next_table_by_index
  exact h.2.2.2.2.2.2.2.2.2.1 0 (by decide)

/-! ### NAT installer and flow-removed handler (natinstaller.py,
nathandler.py, sdn_controller.py)

The server and handler sections work with the presentation strings of
the addresses directly (the codec section models the same strings
through their numeric values, which are in bijection with them). -/

/-- MappingRemovalType.FLOW_ENTRY_REMOVED_BY_FORWARDER. -/
def FLOW_ENTRY_REMOVED_BY_FORWARDER : Nat := 0

/-- MappingRemovalType.REQUESTED_BY_CLIENT. -/
def REQUESTED_BY_CLIENT : Nat := 1

/-- ofproto of OpenFlow 1.3: OFPRR_IDLE_TIMEOUT. -/
def OFPRR_IDLE_TIMEOUT : Nat := 0

/-- A value stored in an OFPMatch field: an address string or an
integer. -/
inductive MatchVal : Type
  | str (s : String)
  | num (n : Nat)
deriving DecidableEq

/-- Lookup in a match dict. -/
def mlookup : List (String × MatchVal) → String → Option MatchVal
  | [], _ => none
  | (k, v) :: t, key => if k = key then some v else mlookup t key

/-- natinstaller.MATCH_FIELD_NAME_MAPS, as a function from the category
name and the integer key; none models KeyError. -/
def matchFieldNameMap (category : String) (key : Nat) : Option String :=
  if category = "ip_src" then
    if key = AF_IPV4 then some "ipv4_src"
    else if key = AF_IPV6 then some "ipv6_src" else none
  else if category = "ip_dst" then
    if key = AF_IPV4 then some "ipv4_dst"
    else if key = AF_IPV6 then some "ipv6_dst" else none
  else if category = "port_src" then
    if key = PROTO_TCP then some "tcp_src"
    else if key = PROTO_UDP then some "udp_src" else none
  else if category = "port_dst" then
    if key = PROTO_TCP then some "tcp_dst"
    else if key = PROTO_UDP then some "udp_dst" else none
  else none

/-- NatInstaller._get_match_data.  Direction 0 is internal to external
(source fields, internal endpoint), direction 1 is external to internal
(destination fields, external endpoint). -/
def get_match_data (e : NatTableEntry) (direction : Nat) :
    Except String (List (String × MatchVal)) :=
  if direction = 0 ∨ direction = 1 then
    let sfx := if direction = 0 then "src" else "dst"
    let ipv := if direction = 0 then e.internal_ip else e.external_ip
    let ptv := if direction = 0 then e.internal_port else e.external_port
    match matchFieldNameMap ("ip_" ++ sfx) e.address_family with
    | none => .error "KeyError"
    | some ipf =>
        match matchFieldNameMap ("port_" ++ sfx) e.protocol with
        | none => .error "KeyError"
        | some ptf =>
            .ok [("eth_type", .num e.address_family), ("ip_proto", .num e.protocol),
                 (ipf, .str ipv), (ptf, .num ptv)]
  else .error "ValueError: invalid translation direction"

/-- NatInstaller._get_action_set_data: same field names as the match of
the direction, with the endpoint of the opposite side. -/
def get_action_set_data (e : NatTableEntry) (direction : Nat) :
    Except String (List (String × MatchVal)) :=
  if direction = 0 ∨ direction = 1 then
    let sfx := if direction = 0 then "src" else "dst"
    let ipv := if direction = 0 then e.external_ip else e.internal_ip
    let ptv := if direction = 0 then e.external_port else e.internal_port
    match matchFieldNameMap ("ip_" ++ sfx) e.address_family with
    | none => .error "KeyError"
    | some ipf =>
        match matchFieldNameMap ("port_" ++ sfx) e.protocol with
        | none => .error "KeyError"
        | some ptf => .ok [(ipf, .str ipv), (ptf, .num ptv)]
  else .error "ValueError: invalid translation direction"

/-- The constant data of a NatInstaller: the two translation table IDs,
the goto-table target and the configured flow entry priority. -/
structure NatInstallerCfg : Type where
  nat_internal_to_external_id : Nat
  nat_external_to_internal_id : Nat
  next_table : Nat
  priority : Nat
deriving DecidableEq

/-- A message sent to the forwarder. -/
inductive OFMsg : Type
  | addFlow (table_id : Nat) (match_data action_set : List (String × MatchVal))
      (next_table idle_timeout priority : Nat)
  | removeFlow (table_id : Nat) (match_data : List (String × MatchVal)) (priority : Nat)
  | sendResponse (resp_version resp_message_type resp_result_code resp_epoch : Nat)
      (resp_lifetime : Nat) (resp_external_ip : Option String)
      (resp_external_port : Option Nat)
deriving DecidableEq

/-- NatInstaller.install_nat_entry: one flow entry per direction, with
idle timeout equal to the entry lifetime and a goto-table instruction to
the next table; messages already sent are kept when an exception is
raised in between. -/
def install_nat_entry (ic : NatInstallerCfg) (e : NatTableEntry) :
    (List OFMsg) × Except String Unit :=
  match get_match_data e 0 with
  | .error er => ([], .error er)
  | .ok m0 =>
      match get_action_set_data e 0 with
      | .error er => ([], .error er)
      | .ok a0 =>
          let msg0 := OFMsg.addFlow ic.nat_internal_to_external_id m0 a0
            ic.next_table e.lifetime ic.priority
          match get_match_data e 1 with
          | .error er => ([msg0], .error er)
          | .ok m1 =>
              match get_action_set_data e 1 with
              | .error er => ([msg0], .error er)
              | .ok a1 =>
                  ([msg0, OFMsg.addFlow ic.nat_external_to_internal_id m1 a1
                      ic.next_table e.lifetime ic.priority], .ok ())

/-- NatInstaller.uninstall_nat_entry: one flow delete message per
direction, by table ID, match and priority. -/
def uninstall_nat_entry (ic : NatInstallerCfg) (e : NatTableEntry) :
    (List OFMsg) × Except String Unit :=
  match get_match_data e 0 with
  | .error er => ([], .error er)
  | .ok m0 =>
      let msg0 := OFMsg.removeFlow ic.nat_internal_to_external_id m0 ic.priority
      match get_match_data e 1 with
      | .error er => ([msg0], .error er)
      | .ok m1 =>
          ([msg0, OFMsg.removeFlow ic.nat_external_to_internal_id m1 ic.priority], .ok ())

/-- NatHandler.remove_mapping: returns False without touching anything
when no entry exists; otherwise uninstalls the flow entries only when
the removal was requested by the client, then removes the table entry.
The result triple is (messages sent, outcome, new table state). -/
def remove_mapping (ic : NatInstallerCfg) (s : NatState) (internal_ip : String)
    (internal_port mapping_removal_type : Nat) :
    (List OFMsg) × (Except String Bool) × NatState :=
  match find_entry s internal_ip internal_port with
  | none => ([], .ok false, s)
  | some e =>
      let un := if mapping_removal_type = REQUESTED_BY_CLIENT then
                  uninstall_nat_entry ic e
                else ([], .ok ())
      match un.2 with
      | .error er => (un.1, .error er, s)
      | .ok _ =>
          match remove_entry s internal_ip internal_port with
          | (.ok _, s1) => (un.1, .ok true, s1)
          | (.error er, s1) => (un.1, .error er, s1)

/-- NatHandler.create_mapping: raises MappingError when the internal
endpoint already has an entry, otherwise adds an entry and installs its
two flow entries. -/
def create_mapping (cfg : NatPoolConfig) (ic : NatInstallerCfg) (s : NatState)
    (internal_ip : String) (internal_port : Nat) (external_ip : Option String)
    (external_port : Option Nat) (protocol lifetime : Nat) :
    (List OFMsg) × (Except String NatTableEntry) × NatState :=
  match find_entry s internal_ip internal_port with
  | some _ => ([], .error "MappingError: mapping entry already exists", s)
  | none =>
      match add_entry cfg s internal_ip internal_port lifetime external_ip external_port
          protocol AF_IPV4 with
      | (.error er, s1) => ([], .error er, s1)
      | (.ok entry, s1) =>
          match install_nat_entry ic entry with
          | (msgs, .error er) => (msgs, .error er, s1)
          | (msgs, .ok _) => (msgs, .ok entry, s1)

/-- NatHandler.update_mapping_lifetime: raises MappingError when the
entry does not exist; otherwise updates the entry lifetime and
reinstalls the flow entries (uninstall followed by install, to refresh
the idle timeout). -/
def update_mapping_lifetime (ic : NatInstallerCfg) (s : NatState) (internal_ip : String)
    (internal_port lifetime : Nat) :
    (List OFMsg) × (Except String NatTableEntry) × NatState :=
  match find_entry s internal_ip internal_port with
  | none => ([], .error "MappingError: mapping entry does not exist", s)
  | some _ =>
      match update_entry_lifetime s internal_ip internal_port lifetime with
      | (.error er, s1) => ([], .error er, s1)
      | (.ok new_entry, s1) =>
          match uninstall_nat_entry ic new_entry with
          | (umsgs, .error er) => (umsgs, .error er, s1)
          | (umsgs, .ok _) =>
              match install_nat_entry ic new_entry with
              | (imsgs, .error er) => (umsgs ++ imsgs, .error er, s1)
              | (imsgs, .ok _) => (umsgs ++ imsgs, .ok new_entry, s1)

/-- PcpSdnApp.flow_entry_removed_handler.  Only an idle-timeout removal
from the internal-to-external table removes a NAT table entry: the
internal endpoint is read back from the removed entry's match using the
MATCH_FIELD_NAME_MAPS tables keyed by the eth_type and ip_proto of the
match, and removal is performed with reason
FLOW_ENTRY_REMOVED_BY_FORWARDER; an event for the external-to-internal
table, or any other table, or any other reason, does nothing. -/
def flow_entry_removed_handler (ic : NatInstallerCfg) (ftables : FlowTableHelper)
    (s : NatState) (reason table_id : Nat) (mtch : List (String × MatchVal)) :
    (List OFMsg) × (Except String Bool) × NatState :=
  if reason = OFPRR_IDLE_TIMEOUT then
    match flowTableGet ftables "nat_internal_to_external" with
    | .error er => ([], .error er, s)
    | .ok i2e_id =>
        if table_id = i2e_id then
          match mlookup mtch "eth_type" with
          | some (.num eth_type) =>
              (match mlookup mtch "ip_proto" with
               | some (.num ip_proto) =>
                   (match matchFieldNameMap "ip_src" eth_type with
                    | some ip_src_name =>
                        (match matchFieldNameMap "port_src" ip_proto with
                         | some port_src_name =>
                             (match mlookup mtch ip_src_name with
                              | some (.str ip) =>
                                  (match mlookup mtch port_src_name with
                                   | some (.num port) =>
                                       remove_mapping ic s ip port
                                         FLOW_ENTRY_REMOVED_BY_FORWARDER
                                   | _ => ([], .error "KeyError", s))
                              | _ => ([], .error "KeyError", s))
                         | none => ([], .error "KeyError", s))
                    | none => ([], .error "KeyError", s))
               | _ => ([], .error "KeyError", s))
          | _ => ([], .error "KeyError", s)
        else
          match flowTableGet ftables "nat_external_to_internal" with
          | .error er => ([], .error er, s)
          | .ok _ => ([], .ok false, s)
  else ([], .ok false, s)

/-- The dict contents of a PcpMessage object held by the server, with
the addresses as their presentation strings, plus the parse_result
attribute.  A field holds none when its key is absent from the dict
(result_code and epoch_time are absent in parsed requests and set in
responses). -/
structure PcpMsgDict : Type where
  version : Option Nat
  message_type : Option Nat
  opcode : Option Nat
  lifetime : Option Nat
  pcp_client_ip : Option String
  mapping_nonce : Option (List Nat)
  protocol : Option Nat
  internal_port : Option Nat
  external_port : Option Nat
  external_ip : Option String
  remote_peer_port : Option Nat
  remote_peer_ip : Option String
  result_code : Option Nat
  epoch_time : Option Nat
  parse_result : Nat
deriving DecidableEq

/-- PcpServer._get_minimum_acceptable_mapping_lifetime. -/
def get_minimum_acceptable_mapping_lifetime (map_default peer_default : Nat)
    (opcode lifetime : Nat) : Nat :=
  if opcode = OPCODE_MAP ∧ lifetime < map_default then map_default
  else if opcode = OPCODE_PEER ∧ lifetime < peer_default then peer_default
  else lifetime

/-- PcpServer._build_pcp_response_payload with result SUCCESS (the only
result the caller uses): the response is the request dict with version,
message type, result code and epoch time overwritten; with a mapping its
lifetime is copied and, for MAP and PEER, so is its external endpoint;
with no mapping the lifetime becomes 0 and the external fields are left
exactly as received. -/
def build_pcp_response_payload (epoch : Nat) (req : PcpMsgDict)
    (mapping : Option NatTableEntry) : PcpMsgDict :=
  let resp := { req with version := some 2, message_type := some PCP_RESPONSE,
                         result_code := some SUCCESS, epoch_time := some epoch }
  match mapping with
  | some m =>
      let resp2 := { resp with lifetime := some m.lifetime }
      if req.opcode = some OPCODE_MAP ∨ req.opcode = some OPCODE_PEER then
        { resp2 with external_ip := some m.external_ip,
                     external_port := some m.external_port }
      else resp2
  | none => { resp with lifetime := some 0 }

/-- The response packet sent by the server, reduced to the payload
fields the claims inspect. -/
def responseMsg (resp : PcpMsgDict) : OFMsg :=
  OFMsg.sendResponse (resp.version.getD 0) (resp.message_type.getD 0)
    (resp.result_code.getD 0) (resp.epoch_time.getD 0) (resp.lifetime.getD 0)
    resp.external_ip resp.external_port

/-- PcpServer.process_pcp_request, from the point where the request has
been parsed (req is none when parse returned None).  Mirrors the source:
silent drop on none, log-and-return on a non-SUCCESS parse result,
KeyError when a mapping parameter is missing, then either lifetime
update, mapping creation, or removal with reason REQUESTED_BY_CLIENT
for a zero lifetime, and finally the response packet. -/
def process_pcp_request (cfg : NatPoolConfig) (ic : NatInstallerCfg)
    (map_default peer_default epoch : Nat) (s : NatState) (req : Option PcpMsgDict) :
    (List OFMsg) × (Except String Unit) × NatState :=
  match req with
  | none => ([], .ok (), s)
  | some r =>
      if r.parse_result ≠ SUCCESS then ([], .ok (), s)
      else
        match r.pcp_client_ip, r.internal_port, r.external_ip, r.external_port,
            r.protocol, r.lifetime with
        | some iip, some ipt, some eip, some ept, some pr, some lt =>
            if lt ≠ 0 then
              match r.opcode with
              | none => ([], .error "KeyError", s)
              | some oc =>
                  let lt2 := get_minimum_acceptable_mapping_lifetime map_default
                    peer_default oc lt
                  let step :=
                    if (find_entry s iip ipt).isSome then
                      update_mapping_lifetime ic s iip ipt lt2
                    else
                      create_mapping cfg ic s iip ipt (some eip) (some ept) pr lt2
                  match step with
                  | (msgs, .error er, s1) => (msgs, .error er, s1)
                  | (msgs, .ok entry, s1) =>
                      let resp := build_pcp_response_payload epoch r (some entry)
                      (msgs ++ [responseMsg resp], .ok (), s1)
            else
              match remove_mapping ic s iip ipt REQUESTED_BY_CLIENT with
              | (msgs, .error er, s1) => (msgs, .error er, s1)
              | (msgs, .ok _, s1) =>
                  let resp := build_pcp_response_payload epoch r none
                  (msgs ++ [responseMsg resp], .ok (), s1)
        | _, _, _, _, _, _ => ([], .error "KeyError", s)

/-- C5: on a successfully parsed MAP or PEER request with zero lifetime
the server removes the mapping of (pcp_client_ip, internal_port) with
reason REQUESTED_BY_CLIENT, which deletes the two translation flow
entries when the mapping exists; a missing mapping is not an error; and
the response has result code SUCCESS, lifetime 0 and the external
endpoint exactly as received. -/
theorem C5_zero_lifetime_removes_and_responds
    (cfg : NatPoolConfig) (ic : NatInstallerCfg) (md pd epoch : Nat) (s : NatState)
    (r : PcpMsgDict) (iip : String) (ipt : Nat) (eip : String) (ept pr : Nat)
    (hres : r.parse_result = SUCCESS)
    (hlt : r.lifetime = some 0)
    (hiip : r.pcp_client_ip = some iip) (hipt : r.internal_port = some ipt)
    (heip : r.external_ip = some eip) (hept : r.external_port = some ept)
    (hpr : r.protocol = some pr) :
    (∀ msgs b s1,
      remove_mapping ic s iip ipt REQUESTED_BY_CLIENT = (msgs, .ok b, s1) →
      process_pcp_request cfg ic md pd epoch s (some r) =
        (msgs ++ [responseMsg (build_pcp_response_payload epoch r none)],
         .ok (), s1)) ∧
    (find_entry s iip ipt = none →
      process_pcp_request cfg ic md pd epoch s (some r) =
        ([responseMsg (build_pcp_response_payload epoch r none)], .ok (), s)) ∧
    (∀ e m0 m1, find_entry s iip ipt = some e →
      get_match_data e 0 = .ok m0 → get_match_data e 1 = .ok m1 →
      (remove_mapping ic s iip ipt REQUESTED_BY_CLIENT).1 =
        [OFMsg.removeFlow ic.nat_internal_to_external_id m0 ic.priority,
         OFMsg.removeFlow ic.nat_external_to_internal_id m1 ic.priority]) ∧
    (build_pcp_response_payload epoch r none).result_code = some SUCCESS ∧
    (build_pcp_response_payload epoch r none).lifetime = some 0 ∧
    (build_pcp_response_payload epoch r none).external_ip = r.external_ip ∧
    (build_pcp_response_payload epoch r none).external_port = r.external_port := by
  have hmain : ∀ msgs b s1,
      remove_mapping ic s iip ipt REQUESTED_BY_CLIENT = (msgs, .ok b, s1) →
      process_pcp_request cfg ic md pd epoch s (some r) =
        (msgs ++ [responseMsg (build_pcp_response_payload epoch r none)],
         .ok (), s1) := by
    intro msgs b s1 hrm
    simp only [process_pcp_request, hres, hiip, hipt, heip, hept, hpr, hlt, hrm,
      ne_eq, not_true_eq_false, if_false, ite_false]
  refine ⟨hmain, ?_, ?_, rfl, rfl, ?_, ?_⟩
  · intro hfind
    have hrm : remove_mapping ic s iip ipt REQUESTED_BY_CLIENT = ([], .ok false, s) := by
      simp only [remove_mapping, find_entry] at hfind ⊢
      rw [hfind]
    have h := hmain [] false s hrm
    simpa using h
  · intro e m0 m1 hfind hm0 hm1
    simp only [remove_mapping, find_entry] at hfind ⊢
    rw [hfind]
    simp only [REQUESTED_BY_CLIENT, if_pos rfl, uninstall_nat_entry, hm0, hm1]
    obtain ⟨r1, s1⟩ := remove_entry s iip ipt
    cases r1 <;> rfl
  · simp [build_pcp_response_payload, heip]
  · simp [build_pcp_response_payload, hept]

/-- The installer constants of the controller pipeline: translation
tables 2 and 3, next table 4, default flow entry priority 1. -/
def c5Ic : NatInstallerCfg :=
  { nat_internal_to_external_id := 2, nat_external_to_internal_id := 3,
    next_table := 4, priority := 1 }

/-- A successfully parsed MAP request with zero lifetime. -/
def c5Req : PcpMsgDict :=
  { version := some 2, message_type := some PCP_REQUEST, opcode := some OPCODE_MAP,
    lifetime := some 0, pcp_client_ip := some "172.16.1.1",
    mapping_nonce := some [1, 2, 3, 4, 100, 255, 142, 17, 10, 9, 2, 4],
    protocol := some PROTO_TCP, internal_port := some 2000,
    external_port := some 50000, external_ip := some "200.0.0.5",
    remote_peer_port := none, remote_peer_ip := none,
    result_code := none, epoch_time := none, parse_result := SUCCESS }

/-- The table state holding one mapping for 172.16.1.1 port 2000. -/
def c5S1 : NatState :=
  (add_entry testNatCfg (initNatTable testNatCfg) "172.16.1.1" 2000 3600 none none
    PROTO_TCP AF_IPV4).2

/-- The entry stored in c5S1. -/
def c5Entry : NatTableEntry :=
  { address_family := AF_IPV4, protocol := PROTO_TCP,
    internal_ip := "172.16.1.1", internal_port := 2000,
    external_ip := "200.0.0.1", external_port := 49152, lifetime := 3600 }

/-- A zero-lifetime MAP request on an empty table yields only the
response, and on a table holding the mapping the removal sends the two
flow delete messages. -/
theorem C5_witness :
    process_pcp_request testNatCfg c5Ic 3600 3600 7 (initNatTable testNatCfg)
        (some c5Req) =
      ([responseMsg (build_pcp_response_payload 7 c5Req none)], .ok (),
       initNatTable testNatCfg) ∧
    (remove_mapping c5Ic c5S1 "172.16.1.1" 2000 REQUESTED_BY_CLIENT).1 =
      [OFMsg.removeFlow 2
        [("eth_type", MatchVal.num AF_IPV4), ("ip_proto", MatchVal.num PROTO_TCP),
         ("ipv4_src", MatchVal.str "172.16.1.1"), ("tcp_src", MatchVal.num 2000)] 1,
       OFMsg.removeFlow 3
        [("eth_type", MatchVal.num AF_IPV4), ("ip_proto", MatchVal.num PROTO_TCP),
         ("ipv4_dst", MatchVal.str "200.0.0.1"), ("tcp_dst", MatchVal.num 49152)] 1] := by
  constructor
  · exact (C5_zero_lifetime_removes_and_responds testNatCfg c5Ic 3600 3600 7
      (initNatTable testNatCfg) c5Req "172.16.1.1" 2000 "200.0.0.5" 50000 PROTO_TCP
      rfl rfl rfl rfl rfl rfl rfl).2.1 rfl
  · exact (C5_zero_lifetime_removes_and_responds testNatCfg c5Ic 3600 3600 7
      c5S1 c5Req "172.16.1.1" 2000 "200.0.0.5" 50000 PROTO_TCP
      rfl rfl rfl rfl rfl rfl rfl).2.2.1 c5Entry
      [("eth_type", MatchVal.num AF_IPV4), ("ip_proto", MatchVal.num PROTO_TCP),
       ("ipv4_src", MatchVal.str "172.16.1.1"), ("tcp_src", MatchVal.num 2000)]
      [("eth_type", MatchVal.num AF_IPV4), ("ip_proto", MatchVal.num PROTO_TCP),
       ("ipv4_dst", MatchVal.str "200.0.0.1"), ("tcp_dst", MatchVal.num 49152)]
      rfl rfl rfl

/-- C6: an idle-timeout flow-removed event from the internal-to-external
table whose match was built by the installer for an entry behaves
exactly as removing the mapping of that entry's internal endpoint with
reason FLOW_ENTRY_REMOVED_BY_FORWARDER, which sends no message to the
forwarder and, when the entry is present, leaves the state of
remove_entry; an event for the external-to-internal table leaves the
table unchanged and sends nothing. -/
theorem C6_flow_removed_idle_timeout
    (ic : NatInstallerCfg) (ft : FlowTableHelper) (s : NatState) (e : NatTableEntry)
    (m : List (String × MatchVal)) (i2e_id e2i_id : Nat)
    (haf : e.address_family = AF_IPV4 ∨ e.address_family = AF_IPV6)
    (hpr : e.protocol = PROTO_TCP ∨ e.protocol = PROTO_UDP)
    (hm : get_match_data e 0 = .ok m)
    (hi2e : flowTableGet ft "nat_internal_to_external" = .ok i2e_id)
    (he2i : flowTableGet ft "nat_external_to_internal" = .ok e2i_id)
    (hne : e2i_id ≠ i2e_id) :
    flow_entry_removed_handler ic ft s OFPRR_IDLE_TIMEOUT i2e_id m =
      remove_mapping ic s e.internal_ip e.internal_port
        FLOW_ENTRY_REMOVED_BY_FORWARDER ∧
    (remove_mapping ic s e.internal_ip e.internal_port
      FLOW_ENTRY_REMOVED_BY_FORWARDER).1 = [] ∧
    (∀ e2, find_entry s e.internal_ip e.internal_port = some e2 →
      (remove_mapping ic s e.internal_ip e.internal_port
        FLOW_ENTRY_REMOVED_BY_FORWARDER).2.2 =
        (remove_entry s e.internal_ip e.internal_port).2) ∧
    flow_entry_removed_handler ic ft s OFPRR_IDLE_TIMEOUT e2i_id m =
      ([], .ok false, s) := by
  refine ⟨?_, ?_, ?_, ?_⟩
  · rcases haf with haf | haf <;> rcases hpr with hpr | hpr <;>
      (simp [get_match_data, matchFieldNameMap, haf, hpr, AF_IPV4, AF_IPV6,
         PROTO_TCP, PROTO_UDP] at hm;
       subst hm;
       simp [flow_entry_removed_handler, hi2e, mlookup, haf, hpr, matchFieldNameMap,
         AF_IPV4, AF_IPV6, PROTO_TCP, PROTO_UDP, FLOW_ENTRY_REMOVED_BY_FORWARDER,
         OFPRR_IDLE_TIMEOUT])
  · simp only [remove_mapping]
    cases hfind : find_entry s e.internal_ip e.internal_port with
    | none => rfl
    | some e2 =>
        simp only [FLOW_ENTRY_REMOVED_BY_FORWARDER, REQUESTED_BY_CLIENT]
        rw [if_neg (by omega)]
        obtain ⟨r1, s1⟩ := remove_entry s e.internal_ip e.internal_port
        cases r1 <;> rfl
  · intro e2 hfind
    simp only [remove_mapping, hfind]
    simp only [FLOW_ENTRY_REMOVED_BY_FORWARDER, REQUESTED_BY_CLIENT]
    rw [if_neg (by omega)]
    obtain ⟨r1, s1⟩ := remove_entry s e.internal_ip e.internal_port
    cases r1 <;> rfl
  · simp only [flow_entry_removed_handler, hi2e, he2i, OFPRR_IDLE_TIMEOUT,
      if_pos rfl]
    rw [if_neg hne]
    simp

/-- An idle-timeout flow-removed event from table 2 with the installed
match of the stored entry removes its mapping without messages, and the
same event from table 3 changes nothing. -/
theorem C6_witness :
    flow_entry_removed_handler c5Ic c8Helper c5S1 OFPRR_IDLE_TIMEOUT 2
        [("eth_type", MatchVal.num AF_IPV4), ("ip_proto", MatchVal.num PROTO_TCP),
         ("ipv4_src", MatchVal.str "172.16.1.1"), ("tcp_src", MatchVal.num 2000)] =
      remove_mapping c5Ic c5S1 c5Entry.internal_ip c5Entry.internal_port
        FLOW_ENTRY_REMOVED_BY_FORWARDER ∧
    flow_entry_removed_handler c5Ic c8Helper c5S1 OFPRR_IDLE_TIMEOUT 3
        [("eth_type", MatchVal.num AF_IPV4), ("ip_proto", MatchVal.num PROTO_TCP),
         ("ipv4_src", MatchVal.str "172.16.1.1"), ("tcp_src", MatchVal.num 2000)] =
      ([], .ok false, c5S1) := by
  have h := C6_flow_removed_idle_timeout c5Ic c8Helper c5S1 c5Entry
    [("eth_type", MatchVal.num AF_IPV4), ("ip_proto", MatchVal.num PROTO_TCP),
     ("ipv4_src", MatchVal.str "172.16.1.1"), ("tcp_src", MatchVal.num 2000)]
    2 3 (Or.inl rfl) (Or.inl rfl) rfl rfl rfl (by decide)
  exact ⟨h.1, h.2.2.2⟩

/-! ### IPv4 presentation string lemmas -/

theorem toList_append (a b : String) : (a ++ b).toList = a.toList ++ b.toList := rfl

set_option maxRecDepth 4096 in
/-- The decimal print of one octet parses back and contains no dot. -/
theorem octet_repr_fact : ∀ k, k < 256 →
    decValOf (Nat.repr k).toList = some k ∧ ∀ ch ∈ (Nat.repr k).toList, ch ≠ '.' := by
  decide

theorem splitDots_ne_nil (l : List Char) : splitDots l ≠ [] := by
  induction l with
  | nil => simp [splitDots]
  | cons c t ih =>
      by_cases h : c = '.'
      · simp [splitDots, h]
      · simp only [splitDots, if_neg h]
        cases hs : splitDots t with
        | nil => simp
        | cons a r => simp

theorem splitDots_no_dot (A : List Char) (h : ∀ ch ∈ A, ch ≠ '.') :
    splitDots A = [A] := by
  induction A with
  | nil => rfl
  | cons c t ih =>
      have hc : ¬ (c = '.') := h c (List.mem_cons_self _ _)
      have ht := ih (fun ch hch => h ch (List.mem_cons_of_mem _ hch))
      simp [splitDots, hc, ht]

theorem splitDots_append (A r : List Char) (h : ∀ ch ∈ A, ch ≠ '.') :
    splitDots (A ++ '.' :: r) = A :: splitDots r := by
  induction A with
  | nil => simp [splitDots]
  | cons c t ih =>
      have hc : ¬ (c = '.') := h c (List.mem_cons_self _ _)
      have ht := ih (fun ch hch => h ch (List.mem_cons_of_mem _ hch))
      simp only [List.cons_append, splitDots, if_neg hc]
      rw [show splitDots (t.append ('.' :: r)) = t :: splitDots r from ht]

/-- The dotted-quad print of a 32-bit value parses back to the value. -/
theorem parseIpv4_natToIpv4Str (n : Nat) (h : n < 4294967296) :
    parseIpv4 (natToIpv4Str n) = some n := by
  have ha : n / 16777216 % 256 < 256 := Nat.mod_lt _ (by omega)
  have hb : n / 65536 % 256 < 256 := Nat.mod_lt _ (by omega)
  have hc : n / 256 % 256 < 256 := Nat.mod_lt _ (by omega)
  have hd : n % 256 < 256 := Nat.mod_lt _ (by omega)
  obtain ⟨hva, hna⟩ := octet_repr_fact _ ha
  obtain ⟨hvb, hnb⟩ := octet_repr_fact _ hb
  obtain ⟨hvc, hnc⟩ := octet_repr_fact _ hc
  obtain ⟨hvd, hnd⟩ := octet_repr_fact _ hd
  have hsplit : (natToIpv4Str n).toList =
      (Nat.repr (n / 16777216 % 256)).toList ++ '.' ::
        ((Nat.repr (n / 65536 % 256)).toList ++ '.' ::
          ((Nat.repr (n / 256 % 256)).toList ++ '.' ::
            (Nat.repr (n % 256)).toList)) := by
    simp [natToIpv4Str, toList_append, List.append_assoc]
  rw [parseIpv4, hsplit, splitDots_append _ _ hna, splitDots_append _ _ hnb,
    splitDots_append _ _ hnc, splitDots_no_dot _ hnd]
  simp only [hva, hvb, hvc, hvd]
  rw [if_pos (by omega)]
  congr 1
  omega

/-- Specification of the address increment on a parseable address below
the 32-bit maximum. -/
theorem get_incremented_ip_spec (ip : String) (v : Nat)
    (hp : parseIpv4 ip = some v) (hlt : v + 1 < 4294967296) :
    ∃ ip2, get_incremented_ip ip = some ip2 ∧ parseIpv4 ip2 = some (v + 1) := by
  refine ⟨natToIpv4Str (v + 1), ?_, parseIpv4_natToIpv4Str _ hlt⟩
  rw [get_incremented_ip, hp]
  simp [hlt]

/-! ### The NAT table consistency invariant (claim C2) -/

/-- Injectivity of the concatenated key on the external domain: parseable
addresses with ports inside the configured pool range. -/
def ExtKeyInj (cfg : NatPoolConfig) : Prop :=
  ∀ ip1 p1 ip2 p2, (parseIpv4 ip1).isSome = true → (parseIpv4 ip2).isSome = true →
    cfg.external_port_low_end ≤ p1 → p1 ≤ cfg.external_port_high_end →
    cfg.external_port_low_end ≤ p2 → p2 ≤ cfg.external_port_high_end →
    get_key ip1 p1 = get_key ip2 p2 → ip1 = ip2 ∧ p1 = p2

/-- The consistency invariant of a NatTable state, relative to the
numeric value v0 of the configured low-end external address. -/
structure NatInv (cfg : NatPoolConfig) (v0 : Nat) (s : NatState) : Prop where
  lastGood : ∃ L, parseIpv4 s.last_external_ip = some L ∧ v0 ≤ L
  tabKeys : ∀ p ∈ s.table, p.1 = get_key p.2.internal_ip p.2.internal_port
  extKeys : ∀ p ∈ s.table_external, p.1 = get_key p.2.external_ip p.2.external_port
  tabNodup : (s.table.map Prod.fst).Nodup
  extNodup : (s.table_external.map Prod.fst).Nodup
  tabToExt : ∀ p ∈ s.table,
    dlookup s.table_external (get_key p.2.external_ip p.2.external_port) = some p.2
  extToTab : ∀ p ∈ s.table_external,
    dlookup s.table (get_key p.2.internal_ip p.2.internal_port) = some p.2
  range : ∀ p ∈ s.table,
    cfg.external_port_low_end ≤ p.2.external_port ∧
    p.2.external_port ≤ cfg.external_port_high_end ∧
    ∃ v, parseIpv4 p.2.external_ip = some v ∧ v0 ≤ v
  fresh : ∀ p ∈ s.table, ∀ L, parseIpv4 s.last_external_ip = some L →
    ∃ pv, parseIpv4 p.2.external_ip = some pv ∧
      (pv < L ∨ (pv = L ∧ ∃ c,
        dlookup s.allocated_external_ips_and_ports s.last_external_ip = some c ∧
        p.2.external_port ≤ c))
  allocLow : ∀ q ∈ s.allocated_external_ips_and_ports,
    cfg.external_port_low_end ≤ q.2
  allocNodup : (s.allocated_external_ips_and_ports.map Prod.fst).Nodup

theorem inv_init (cfg : NatPoolConfig) (v0 : Nat)
    (hlow : parseIpv4 cfg.external_ip_low_end = some v0) :
    NatInv cfg v0 (initNatTable cfg) := by
  refine ⟨⟨v0, hlow, le_refl v0⟩, ?_, ?_, ?_, ?_, ?_, ?_, ?_, ?_, ?_, ?_⟩ <;>
    simp [initNatTable]

/-- add_entry with no suggested endpoint is exactly the allocator
followed by the raw double insert. -/
theorem add_entry_none_eq (cfg : NatPoolConfig) (s : NatState) (iip : String)
    (ipt lt pr af : Nat) :
    add_entry cfg s iip ipt lt none none pr af =
      (match allocate_ip_and_port cfg s none with
       | (.error e, s1) => (.error e, s1)
       | (.ok (eip, eport), s1) =>
           let entry : NatTableEntry :=
             { address_family := af, protocol := pr,
               internal_ip := iip, internal_port := ipt,
               external_ip := eip, external_port := eport, lifetime := lt }
           match add_entry_raw s1 entry with
           | (.ok _, s2) => (.ok entry, s2)
           | (.error e, s2) => (.error e, s2)) := by
  simp only [add_entry, normalize_suggested_external_ip, normalize_suggested_external_port,
    ite_self, allocate_entry]

theorem inv_alloc (cfg : NatPoolConfig) (v0 : Nat) (s : NatState)
    (hport : cfg.external_port_low_end ≤ cfg.external_port_high_end)
    (hinv : NatInv cfg v0 s) :
    ∀ res s1, allocate_ip_and_port cfg s none = (res, s1) →
      s1.table = s.table ∧ s1.table_external = s.table_external ∧
      NatInv cfg v0 s1 ∧
      (∀ eip ept, res = .ok (eip, ept) →
        (cfg.external_port_low_end ≤ ept ∧ ept ≤ cfg.external_port_high_end ∧
         ∃ v, parseIpv4 eip = some v ∧ v0 ≤ v) ∧
        (∀ p ∈ s.table, ¬(p.2.external_ip = eip ∧ p.2.external_port = ept)) ∧
        (∀ L, parseIpv4 s1.last_external_ip = some L →
          ∃ pv, parseIpv4 eip = some pv ∧
            (pv < L ∨ (pv = L ∧ ∃ c,
              dlookup s1.allocated_external_ips_and_ports s1.last_external_ip = some c ∧
              ept ≤ c)))) := by
  obtain ⟨L, hL, hv0L⟩ := hinv.lastGood
  intro res s1 halloc
  cases hl : dlookup s.allocated_external_ips_and_ports s.last_external_ip with
  | none =>
      simp only [allocate_ip_and_port, hl] at halloc
      injection halloc with h1 h2
      subst h1
      subst h2
      refine ⟨rfl, rfl, ?_, ?_⟩
      · refine ⟨⟨L, hL, hv0L⟩, hinv.tabKeys, hinv.extKeys, hinv.tabNodup, hinv.extNodup,
          hinv.tabToExt, hinv.extToTab, hinv.range, ?_, ?_, ?_⟩
        · intro p hp L2 hL2
          rw [hL] at hL2
          injection hL2 with hL2
          subst hL2
          obtain ⟨pv, hpv, hdisj⟩ := hinv.fresh p hp L hL
          refine ⟨pv, hpv, Or.inl ?_⟩
          rcases hdisj with h | ⟨_, c, hc, _⟩
          · exact h
          · rw [hl] at hc
            cases hc
        · intro q hq
          rcases (mem_dinsert hinv.allocNodup).mp hq with ⟨_, hv⟩ | ⟨hq2, _⟩
          · rw [hv]
          · exact hinv.allocLow q hq2
        · exact nodup_dinsert _ _ _ hinv.allocNodup
      · intro eip ept hres
        injection hres with hres
        injection hres with hip hpt
        subst hip
        subst hpt
        refine ⟨⟨le_refl _, hport, L, hL, hv0L⟩, ?_, ?_⟩
        · rintro p hp ⟨hip, hpt⟩
          obtain ⟨pv, hpv, hdisj⟩ := hinv.fresh p hp L hL
          rcases hdisj with h | ⟨_, c, hc, _⟩
          · rw [hip, hL] at hpv
            injection hpv with hpv
            omega
          · rw [hl] at hc
            cases hc
        · intro L2 hL2
          simp only [] at hL2
          rw [hL] at hL2
          injection hL2 with hL2
          subst hL2
          refine ⟨L, hL, Or.inr ⟨rfl, cfg.external_port_low_end, ?_, le_refl _⟩⟩
          simp only []
          rw [dlookup_dinsert]
          simp
  | some c =>
      simp only [allocate_ip_and_port, hl] at halloc
      have hcmem : (s.last_external_ip, c) ∈ s.allocated_external_ips_and_ports :=
        dlookup_mem hl
      have hclow : cfg.external_port_low_end ≤ c := hinv.allocLow _ hcmem
      by_cases hhigh : cfg.external_port_high_end < c + 1
      · rw [if_pos hhigh] at halloc
        cases hinc : get_incremented_ip s.last_external_ip with
        | none =>
            rw [hinc] at halloc
            injection halloc with h1 h2
            subst h1
            subst h2
            refine ⟨rfl, rfl, ?_, ?_⟩
            · refine ⟨⟨L, hL, hv0L⟩, hinv.tabKeys, hinv.extKeys, hinv.tabNodup,
                hinv.extNodup, hinv.tabToExt, hinv.extToTab, hinv.range, ?_, ?_, ?_⟩
              · intro p hp L2 hL2
                rw [hL] at hL2
                injection hL2 with hL2
                subst hL2
                obtain ⟨pv, hpv, hdisj⟩ := hinv.fresh p hp L hL
                refine ⟨pv, hpv, ?_⟩
                rcases hdisj with h | ⟨heq, c2, hc2, hle⟩
                · exact Or.inl h
                · rw [hl] at hc2
                  injection hc2 with hc2
                  refine Or.inr ⟨heq, c + 1, ?_, by omega⟩
                  simp only []
                  rw [dlookup_dinsert]
                  simp
              · intro q hq
                rcases (mem_dinsert hinv.allocNodup).mp hq with ⟨_, hv⟩ | ⟨hq2, _⟩
                · rw [hv]
                  omega
                · exact hinv.allocLow q hq2
              · exact nodup_dinsert _ _ _ hinv.allocNodup
            · intro eip ept hres
              cases hres
        | some ip2 =>
            rw [hinc] at halloc
            injection halloc with h1 h2
            subst h1
            subst h2
            simp only [get_incremented_ip, hL] at hinc
            by_cases h32 : L + 1 < 4294967296
            · rw [if_pos h32] at hinc
              injection hinc with hinc
              have hip2 : parseIpv4 ip2 = some (L + 1) := by
                rw [← hinc]
                exact parseIpv4_natToIpv4Str _ h32
              refine ⟨rfl, rfl, ?_, ?_⟩
              · refine ⟨⟨L + 1, hip2, by omega⟩, hinv.tabKeys, hinv.extKeys,
                  hinv.tabNodup, hinv.extNodup, hinv.tabToExt, hinv.extToTab,
                  hinv.range, ?_, ?_, ?_⟩
                · intro p hp L2 hL2
                  simp only [] at hL2
                  rw [hip2] at hL2
                  injection hL2 with hL2
                  subst hL2
                  obtain ⟨pv, hpv, hdisj⟩ := hinv.fresh p hp L hL
                  refine ⟨pv, hpv, Or.inl ?_⟩
                  rcases hdisj with h | ⟨heq, _⟩
                  · omega
                  · omega
                · intro q hq
                  rcases (mem_dinsert (nodup_dinsert _ _ _ hinv.allocNodup)).mp hq with
                    ⟨_, hv⟩ | ⟨hq2, _⟩
                  · rw [hv]
                  · rcases (mem_dinsert hinv.allocNodup).mp hq2 with ⟨_, hv⟩ | ⟨hq3, _⟩
                    · rw [hv]
                      omega
                    · exact hinv.allocLow q hq3
                · exact nodup_dinsert _ _ _ (nodup_dinsert _ _ _ hinv.allocNodup)
              · intro eip ept hres
                injection hres with hres
                injection hres with hip hpt
                subst hip
                subst hpt
                refine ⟨⟨le_refl _, hport, L + 1, hip2, by omega⟩, ?_, ?_⟩
                · rintro p hp ⟨hip, hpt⟩
                  obtain ⟨pv, hpv, hdisj⟩ := hinv.fresh p hp L hL
                  rw [hip, hip2] at hpv
                  injection hpv with hpv
                  rcases hdisj with h | ⟨heq, _⟩
                  · omega
                  · omega
                · intro L2 hL2
                  simp only [] at hL2
                  rw [hip2] at hL2
                  injection hL2 with hL2
                  subst hL2
                  refine ⟨L + 1, hip2, Or.inr ⟨rfl, cfg.external_port_low_end, ?_, le_refl _⟩⟩
                  simp only []
                  rw [dlookup_dinsert]
                  simp
            · rw [if_neg h32] at hinc
              cases hinc
      · rw [if_neg hhigh] at halloc
        injection halloc with h1 h2
        subst h1
        subst h2
        refine ⟨rfl, rfl, ?_, ?_⟩
        · refine ⟨⟨L, hL, hv0L⟩, hinv.tabKeys, hinv.extKeys, hinv.tabNodup,
            hinv.extNodup, hinv.tabToExt, hinv.extToTab, hinv.range, ?_, ?_, ?_⟩
          · intro p hp L2 hL2
            rw [hL] at hL2
            injection hL2 with hL2
            subst hL2
            obtain ⟨pv, hpv, hdisj⟩ := hinv.fresh p hp L hL
            refine ⟨pv, hpv, ?_⟩
            rcases hdisj with h | ⟨heq, c2, hc2, hle⟩
            · exact Or.inl h
            · rw [hl] at hc2
              injection hc2 with hc2
              refine Or.inr ⟨heq, c + 1, ?_, by omega⟩
              simp only []
              rw [dlookup_dinsert]
              simp
          · intro q hq
            rcases (mem_dinsert hinv.allocNodup).mp hq with ⟨_, hv⟩ | ⟨hq2, _⟩
            · rw [hv]
              omega
            · exact hinv.allocLow q hq2
          · exact nodup_dinsert _ _ _ hinv.allocNodup
        · intro eip ept hres
          injection hres with hres
          injection hres with hip hpt
          subst hip
          subst hpt
          refine ⟨⟨by omega, by omega, L, hL, hv0L⟩, ?_, ?_⟩
          · rintro p hp ⟨hip, hpt⟩
            obtain ⟨pv, hpv, hdisj⟩ := hinv.fresh p hp L hL
            rcases hdisj with h | ⟨heq, c2, hc2, hle⟩
            · rw [hip, hL] at hpv
              injection hpv with hpv
              omega
            · rw [hl] at hc2
              injection hc2 with hc2
              omega
          · intro L2 hL2
            simp only [] at hL2
            rw [hL] at hL2
            injection hL2 with hL2
            subst hL2
            refine ⟨L, hL, Or.inr ⟨rfl, c + 1, ?_, le_refl _⟩⟩
            simp only []
            rw [dlookup_dinsert]
            simp

theorem inv_insert (cfg : NatPoolConfig) (v0 : Nat) (s1 : NatState)
    (hinj : ExtKeyInj cfg) (hinv1 : NatInv cfg v0 s1) (entry : NatTableEntry)
    (hgood : cfg.external_port_low_end ≤ entry.external_port ∧
      entry.external_port ≤ cfg.external_port_high_end ∧
      ∃ v, parseIpv4 entry.external_ip = some v ∧ v0 ≤ v)
    (hnoshare : ∀ p ∈ s1.table,
      ¬(p.2.external_ip = entry.external_ip ∧ p.2.external_port = entry.external_port))
    (hfreshnew : ∀ L, parseIpv4 s1.last_external_ip = some L →
      ∃ pv, parseIpv4 entry.external_ip = some pv ∧
        (pv < L ∨ (pv = L ∧ ∃ c,
          dlookup s1.allocated_external_ips_and_ports s1.last_external_ip = some c ∧
          entry.external_port ≤ c)))
    (hraw : dlookup s1.table (get_key entry.internal_ip entry.internal_port) = none) :
    NatInv cfg v0 { s1 with
      table := dinsert s1.table (get_key entry.internal_ip entry.internal_port) entry,
      table_external := dinsert s1.table_external
        (get_key entry.external_ip entry.external_port) entry } := by
  obtain ⟨hlow, hhigh, v, hv, hv0v⟩ := hgood
  have hextkey : ∀ p ∈ s1.table,
      get_key entry.external_ip entry.external_port =
        get_key p.2.external_ip p.2.external_port → False := by
    intro p hp hkey
    obtain ⟨hplow, hphigh, pv, hpv, _⟩ := hinv1.range p hp
    obtain ⟨hipeq, hpteq⟩ := hinj entry.external_ip entry.external_port
      p.2.external_ip p.2.external_port (by rw [hv]; rfl) (by rw [hpv]; rfl)
      hlow hhigh hplow hphigh hkey
    exact hnoshare p hp ⟨hipeq.symm, hpteq.symm⟩
  refine ⟨hinv1.lastGood, ?_, ?_, ?_, ?_, ?_, ?_, ?_, ?_, hinv1.allocLow,
    hinv1.allocNodup⟩
  · rintro ⟨pk, pe⟩ hp
    rcases (mem_dinsert hinv1.tabNodup).mp hp with ⟨hk, he⟩ | ⟨hp2, _⟩
    · subst he
      exact hk
    · exact hinv1.tabKeys _ hp2
  · rintro ⟨qk, qe⟩ hq
    rcases (mem_dinsert hinv1.extNodup).mp hq with ⟨hk, he⟩ | ⟨hq2, _⟩
    · subst he
      exact hk
    · exact hinv1.extKeys _ hq2
  · exact nodup_dinsert _ _ _ hinv1.tabNodup
  · exact nodup_dinsert _ _ _ hinv1.extNodup
  · rintro ⟨pk, pe⟩ hp
    rcases (mem_dinsert hinv1.tabNodup).mp hp with ⟨hk, he⟩ | ⟨hp2, _⟩
    · subst he
      simp only []
      rw [dlookup_dinsert]
      simp
    · simp only []
      rw [dlookup_dinsert]
      rw [if_neg (fun hc => hextkey _ hp2 hc)]
      exact hinv1.tabToExt _ hp2
  · rintro ⟨qk, qe⟩ hq
    rcases (mem_dinsert hinv1.extNodup).mp hq with ⟨hk, he⟩ | ⟨hq2, _⟩
    · subst he
      simp only []
      rw [dlookup_dinsert]
      simp
    · simp only []
      rw [dlookup_dinsert]
      have hne : ¬ (get_key entry.internal_ip entry.internal_port =
          get_key qe.internal_ip qe.internal_port) := by
        intro hc
        have h2 := hinv1.extToTab _ hq2
        simp only [] at h2
        rw [← hc] at h2
        rw [hraw] at h2
        cases h2
      rw [if_neg hne]
      exact hinv1.extToTab _ hq2
  · rintro ⟨pk, pe⟩ hp
    rcases (mem_dinsert hinv1.tabNodup).mp hp with ⟨hk, he⟩ | ⟨hp2, _⟩
    · subst he
      exact ⟨hlow, hhigh, v, hv, hv0v⟩
    · exact hinv1.range _ hp2
  · rintro ⟨pk, pe⟩ hp L hL
    rcases (mem_dinsert hinv1.tabNodup).mp hp with ⟨hk, he⟩ | ⟨hp2, _⟩
    · subst he
      exact hfreshnew L hL
    · exact hinv1.fresh _ hp2 L hL

theorem inv_add (cfg : NatPoolConfig) (v0 : Nat) (s : NatState) (iip : String)
    (ipt lt pr af : Nat)
    (hport : cfg.external_port_low_end ≤ cfg.external_port_high_end)
    (hinj : ExtKeyInj cfg) (hinv : NatInv cfg v0 s) :
    NatInv cfg v0 (add_entry cfg s iip ipt lt none none pr af).2 := by
  rw [add_entry_none_eq]
  cases halloc : allocate_ip_and_port cfg s none with
  | mk res s1 =>
      obtain ⟨htab, hext, hinv1, hok⟩ := inv_alloc cfg v0 s hport hinv res s1 halloc
      cases res with
      | error e => exact hinv1
      | ok pr2 =>
          obtain ⟨eip, ept⟩ := pr2
          obtain ⟨hgood, hnoshare, hnewfresh⟩ := hok eip ept rfl
          simp only [add_entry_raw]
          cases hraw : dlookup s1.table (get_key iip ipt) with
          | some w => exact hinv1
          | none =>
              exact inv_insert cfg v0 s1 hinj hinv1
                { address_family := af, protocol := pr, internal_ip := iip,
                  internal_port := ipt, external_ip := eip, external_port := ept,
                  lifetime := lt }
                hgood (by rw [htab]; exact hnoshare) hnewfresh hraw

theorem inv_update (cfg : NatPoolConfig) (v0 : Nat) (s : NatState) (iip : String)
    (ipt lt : Nat) (hinj : ExtKeyInj cfg) (hinv : NatInv cfg v0 s) :
    NatInv cfg v0 (update_entry_lifetime s iip ipt lt).2 := by
  rw [update_entry_lifetime]
  cases hfind : dlookup s.table (get_key iip ipt) with
  | none => exact hinv
  | some entry =>
      have hmem : (get_key iip ipt, entry) ∈ s.table := dlookup_mem hfind
      have hkI : get_key iip ipt = get_key entry.internal_ip entry.internal_port :=
        hinv.tabKeys _ hmem
      have hlkE : dlookup s.table_external
          (get_key entry.external_ip entry.external_port) = some entry :=
        hinv.tabToExt _ hmem
      have hmemE : (get_key entry.external_ip entry.external_port, entry) ∈
          s.table_external := dlookup_mem hlkE
      obtain ⟨helow, hehigh, ev, hev, hv0ev⟩ := hinv.range _ hmem
      have hextkey : ∀ p ∈ s.table, p.1 ≠ get_key iip ipt →
          get_key entry.external_ip entry.external_port =
            get_key p.2.external_ip p.2.external_port → False := by
        intro p hp hpk hkey
        obtain ⟨hplow, hphigh, pv, hpv, _⟩ := hinv.range p hp
        obtain ⟨hipeq, hpteq⟩ := hinj entry.external_ip entry.external_port
          p.2.external_ip p.2.external_port (by rw [hev]; rfl) (by rw [hpv]; rfl)
          helow hehigh hplow hphigh hkey
        have hsame : dlookup s.table_external
            (get_key p.2.external_ip p.2.external_port) = some p.2 :=
          hinv.tabToExt p hp
        rw [← hkey, hlkE] at hsame
        injection hsame with hsame
        apply hpk
        rw [hinv.tabKeys p hp, ← hsame, ← hkI]
      refine ⟨hinv.lastGood, ?_, ?_, ?_, ?_, ?_, ?_, ?_, ?_, hinv.allocLow,
        hinv.allocNodup⟩
      · rintro ⟨pk, pe⟩ hp
        rcases (mem_dinsert hinv.tabNodup).mp hp with ⟨hk, he⟩ | ⟨hp2, _⟩
        · subst he
          rw [hk, hkI]
        · exact hinv.tabKeys _ hp2
      · rintro ⟨qk, qe⟩ hq
        rcases (mem_dinsert hinv.extNodup).mp hq with ⟨hk, he⟩ | ⟨hq2, _⟩
        · subst he
          exact hk
        · exact hinv.extKeys _ hq2
      · exact nodup_dinsert _ _ _ hinv.tabNodup
      · exact nodup_dinsert _ _ _ hinv.extNodup
      · rintro ⟨pk, pe⟩ hp
        rcases (mem_dinsert hinv.tabNodup).mp hp with ⟨hk, he⟩ | ⟨hp2, hpk⟩
        · subst he
          simp only []
          rw [dlookup_dinsert]
          simp
        · simp only []
          rw [dlookup_dinsert]
          rw [if_neg (fun hc => hextkey _ hp2 hpk hc)]
          exact hinv.tabToExt _ hp2
      · rintro ⟨qk, qe⟩ hq
        rcases (mem_dinsert hinv.extNodup).mp hq with ⟨hk, he⟩ | ⟨hq2, hqk⟩
        · subst he
          simp only []
          rw [dlookup_dinsert]
          rw [if_pos hkI]
        · simp only []
          rw [dlookup_dinsert]
          have hne : ¬ (get_key iip ipt =
              get_key qe.internal_ip qe.internal_port) := by
            intro hc
            have h2 := hinv.extToTab _ hq2
            simp only [] at h2
            rw [← hc, hfind] at h2
            injection h2 with h2
            apply hqk
            have hqe := hinv.extKeys _ hq2
            simp only [] at hqe
            rw [hqe, ← h2]
          rw [if_neg hne]
          exact hinv.extToTab _ hq2
      · rintro ⟨pk, pe⟩ hp
        rcases (mem_dinsert hinv.tabNodup).mp hp with ⟨hk, he⟩ | ⟨hp2, _⟩
        · subst he
          exact ⟨helow, hehigh, ev, hev, hv0ev⟩
        · exact hinv.range _ hp2
      · rintro ⟨pk, pe⟩ hp L hL
        rcases (mem_dinsert hinv.tabNodup).mp hp with ⟨hk, he⟩ | ⟨hp2, _⟩
        · subst he
          exact hinv.fresh _ hmem L hL
        · exact hinv.fresh _ hp2 L hL

theorem inv_remove (cfg : NatPoolConfig) (v0 : Nat) (s : NatState) (iip : String)
    (ipt : Nat) (hinv : NatInv cfg v0 s) :
    NatInv cfg v0 (remove_entry s iip ipt).2 := by
  rw [remove_entry]
  cases hfind : find_entry s iip ipt with
  | none => exact hinv
  | some entry =>
      have hfind2 : dlookup s.table (get_key iip ipt) = some entry := hfind
      have hmem : (get_key iip ipt, entry) ∈ s.table := dlookup_mem hfind2
      have hkI : get_key iip ipt = get_key entry.internal_ip entry.internal_port :=
        hinv.tabKeys _ hmem
      have hlkE : dlookup s.table_external
          (get_key entry.external_ip entry.external_port) = some entry :=
        hinv.tabToExt _ hmem
      simp only []
      rw [if_pos (show (dlookup s.table_external
          (get_key entry.external_ip entry.external_port)).isSome = true by
        rw [hlkE]; rfl)]
      refine ⟨hinv.lastGood, ?_, ?_, ?_, ?_, ?_, ?_, ?_, ?_, hinv.allocLow,
        hinv.allocNodup⟩
      · rintro ⟨pk, pe⟩ hp
        exact hinv.tabKeys _ ((mem_ddel hinv.tabNodup).mp hp).1
      · rintro ⟨qk, qe⟩ hq
        exact hinv.extKeys _ ((mem_ddel hinv.extNodup).mp hq).1
      · exact nodup_ddel _ _ hinv.tabNodup
      · exact nodup_ddel _ _ hinv.extNodup
      · rintro ⟨pk, pe⟩ hp
        obtain ⟨hp2, hpk⟩ := (mem_ddel hinv.tabNodup).mp hp
        have hne : get_key pe.external_ip pe.external_port ≠
            get_key entry.external_ip entry.external_port := by
          intro hc
          have h2 := hinv.tabToExt _ hp2
          simp only [] at h2
          rw [hc, hlkE] at h2
          injection h2 with h2
          apply hpk
          have hpkk := hinv.tabKeys _ hp2
          simp only [] at hpkk
          rw [hpkk, ← h2, ← hkI]
        simp only []
        rw [dlookup_ddel_ne _ _ _ hne]
        exact hinv.tabToExt _ hp2
      · rintro ⟨qk, qe⟩ hq
        obtain ⟨hq2, hqk⟩ := (mem_ddel hinv.extNodup).mp hq
        have hne : get_key qe.internal_ip qe.internal_port ≠ get_key iip ipt := by
          intro hc
          have h2 := hinv.extToTab _ hq2
          simp only [] at h2
          rw [hc, hfind2] at h2
          injection h2 with h2
          apply hqk
          have hqkk := hinv.extKeys _ hq2
          simp only [] at hqkk
          rw [hqkk, ← h2]
        simp only []
        rw [dlookup_ddel_ne _ _ _ hne]
        exact hinv.extToTab _ hq2
      · rintro ⟨pk, pe⟩ hp
        exact hinv.range _ ((mem_ddel hinv.tabNodup).mp hp).1
      · rintro ⟨pk, pe⟩ hp L hL
        exact hinv.fresh _ ((mem_ddel hinv.tabNodup).mp hp).1 L hL

theorem inv_remove_ext (cfg : NatPoolConfig) (v0 : Nat) (s : NatState)
    (eip : String) (ept : Nat) (hinv : NatInv cfg v0 s) :
    NatInv cfg v0 (remove_entry_by_external s eip ept).2 := by
  rw [remove_entry_by_external]
  cases hfind : find_entry_by_external s eip ept with
  | none => exact hinv
  | some entry =>
      have hfind2 : dlookup s.table_external (get_key eip ept) = some entry := hfind
      have hmemE : (get_key eip ept, entry) ∈ s.table_external := dlookup_mem hfind2
      have hkX : get_key eip ept = get_key entry.external_ip entry.external_port :=
        hinv.extKeys _ hmemE
      have hlkI : dlookup s.table
          (get_key entry.internal_ip entry.internal_port) = some entry :=
        hinv.extToTab _ hmemE
      simp only []
      rw [if_pos (show (dlookup s.table
          (get_key entry.internal_ip entry.internal_port)).isSome = true by
        rw [hlkI]; rfl)]
      refine ⟨hinv.lastGood, ?_, ?_, ?_, ?_, ?_, ?_, ?_, ?_, hinv.allocLow,
        hinv.allocNodup⟩
      · rintro ⟨pk, pe⟩ hp
        exact hinv.tabKeys _ ((mem_ddel hinv.tabNodup).mp hp).1
      · rintro ⟨qk, qe⟩ hq
        exact hinv.extKeys _ ((mem_ddel hinv.extNodup).mp hq).1
      · exact nodup_ddel _ _ hinv.tabNodup
      · exact nodup_ddel _ _ hinv.extNodup
      · rintro ⟨pk, pe⟩ hp
        obtain ⟨hp2, hpk⟩ := (mem_ddel hinv.tabNodup).mp hp
        have hne : get_key pe.external_ip pe.external_port ≠ get_key eip ept := by
          intro hc
          have h2 := hinv.tabToExt _ hp2
          simp only [] at h2
          rw [hc, hfind2] at h2
          injection h2 with h2
          apply hpk
          have hpkk := hinv.tabKeys _ hp2
          simp only [] at hpkk
          rw [hpkk, ← h2]
        simp only []
        rw [dlookup_ddel_ne _ _ _ hne]
        exact hinv.tabToExt _ hp2
      · rintro ⟨qk, qe⟩ hq
        obtain ⟨hq2, hqk⟩ := (mem_ddel hinv.extNodup).mp hq
        have hne : get_key qe.internal_ip qe.internal_port ≠
            get_key entry.internal_ip entry.internal_port := by
          intro hc
          have h2 := hinv.extToTab _ hq2
          simp only [] at h2
          rw [hc, hlkI] at h2
          injection h2 with h2
          apply hqk
          have hqkk := hinv.extKeys _ hq2
          simp only [] at hqkk
          rw [hqkk, ← h2, ← hkX]
        simp only []
        rw [dlookup_ddel_ne _ _ _ hne]
        exact hinv.extToTab _ hq2
      · rintro ⟨pk, pe⟩ hp
        exact hinv.range _ ((mem_ddel hinv.tabNodup).mp hp).1
      · rintro ⟨pk, pe⟩ hp L hL
        exact hinv.fresh _ ((mem_ddel hinv.tabNodup).mp hp).1 L hL

theorem inv_step (cfg : NatPoolConfig) (v0 : Nat) (s : NatState) (op : NatOp)
    (hport : cfg.external_port_low_end ≤ cfg.external_port_high_end)
    (hinj : ExtKeyInj cfg) (hinv : NatInv cfg v0 s) :
    NatInv cfg v0 (natStep cfg s op) := by
  cases op with
  | add iip ipt lt pr af => exact inv_add cfg v0 s iip ipt lt pr af hport hinj hinv
  | updateLifetime iip ipt lt => exact inv_update cfg v0 s iip ipt lt hinj hinv
  | removeInternal iip ipt => exact inv_remove cfg v0 s iip ipt hinv
  | removeExternal eip ept => exact inv_remove_ext cfg v0 s eip ept hinv

theorem inv_run (cfg : NatPoolConfig) (v0 : Nat) (ops : List NatOp) (s : NatState)
    (hport : cfg.external_port_low_end ≤ cfg.external_port_high_end)
    (hinj : ExtKeyInj cfg) (hinv : NatInv cfg v0 s) :
    NatInv cfg v0 (runNatOps cfg s ops) := by
  induction ops generalizing s with
  | nil => exact hinv
  | cons op t ih => exact ih _ (inv_step cfg v0 s op hport hinj hinv)

/-- C2 (amended): after any sequence of no-suggestion add_entry,
update_entry_lifetime, remove_entry and remove_entry_by_external
operations on a fresh NatTable — with a nonempty port range, a
parseable low-end external address, and the concatenated key injective
on parseable addresses with in-range ports — the two indices hold
exactly the same set of entries, no two live entries share an external
endpoint, every external port is inside the configured range, and every
external address is numerically at least the low-end address.  (The
original claim fails for suggested endpoints and for the upper address
bound; see the counterexample.) -/
theorem C2_index_consistency (cfg : NatPoolConfig) (ops : List NatOp) (v0 : Nat)
    (hport : cfg.external_port_low_end ≤ cfg.external_port_high_end)
    (hlow : parseIpv4 cfg.external_ip_low_end = some v0)
    (hinj : ExtKeyInj cfg) :
    (∀ e, (∃ k, (k, e) ∈ (runNatOps cfg (initNatTable cfg) ops).table) ↔
      (∃ k, (k, e) ∈ (runNatOps cfg (initNatTable cfg) ops).table_external)) ∧
    (∀ p q, p ∈ (runNatOps cfg (initNatTable cfg) ops).table →
      q ∈ (runNatOps cfg (initNatTable cfg) ops).table →
      p.2.external_ip = q.2.external_ip → p.2.external_port = q.2.external_port →
      p = q) ∧
    (∀ p ∈ (runNatOps cfg (initNatTable cfg) ops).table,
      cfg.external_port_low_end ≤ p.2.external_port ∧
      p.2.external_port ≤ cfg.external_port_high_end) ∧
    (∀ p ∈ (runNatOps cfg (initNatTable cfg) ops).table,
      ∃ v, parseIpv4 p.2.external_ip = some v ∧ v0 ≤ v) := by
  have hinv := inv_run cfg v0 ops (initNatTable cfg) hport hinj (inv_init cfg v0 hlow)
  refine ⟨?_, ?_, ?_, ?_⟩
  · intro e
    constructor
    · rintro ⟨k, hk⟩
      exact ⟨_, dlookup_mem (hinv.tabToExt _ hk)⟩
    · rintro ⟨k, hk⟩
      exact ⟨_, dlookup_mem (hinv.extToTab _ hk)⟩
  · intro p q hp hq hip hpt
    have h1 := hinv.tabToExt _ hp
    have h2 := hinv.tabToExt _ hq
    rw [hip, hpt, h2] at h1
    injection h1 with h1
    have hk1 := hinv.tabKeys _ hp
    have hk2 := hinv.tabKeys _ hq
    have hkeq : p.1 = q.1 := by
      rw [hk1, hk2, h1]
    exact Prod.ext hkeq h1.symm
  · intro p hp
    exact ⟨(hinv.range _ hp).1, (hinv.range _ hp).2.1⟩
  · intro p hp
    exact (hinv.range _ hp).2.2

/-- The test pool with the low-end external port raised to 50000. -/
def c2Cfg : NatPoolConfig := { testNatCfg with external_port_low_end := 50000 }

/-- State after one add_entry with the suggested endpoint
(200.0.0.3, 50000), accepted verbatim. -/
def c2S1 : NatState :=
  (add_entry c2Cfg (initNatTable c2Cfg) "172.16.1.1" 2000 3600
    (some "200.0.0.3") (some 50000) PROTO_TCP AF_IPV4).2

/-- State after a second add_entry suggesting only the address
200.0.0.3: the allocator has no record of the verbatim reservation and
hands out (200.0.0.3, 50000) again. -/
def c2S2 : NatState :=
  (add_entry c2Cfg c2S1 "172.16.1.2" 2000 3600
    (some "200.0.0.3") none PROTO_TCP AF_IPV4).2

/-- The first entry of the duplicate-endpoint scenario. -/
def c2E1 : NatTableEntry :=
  { address_family := AF_IPV4, protocol := PROTO_TCP,
    internal_ip := "172.16.1.1", internal_port := 2000,
    external_ip := "200.0.0.3", external_port := 50000, lifetime := 3600 }

/-- The second entry of the duplicate-endpoint scenario. -/
def c2E2 : NatTableEntry :=
  { address_family := AF_IPV4, protocol := PROTO_TCP,
    internal_ip := "172.16.1.2", internal_port := 2000,
    external_ip := "200.0.0.3", external_port := 50000, lifetime := 3600 }

/-- The test pool shrunk to a single external endpoint: one address and
one port. -/
def c2RangeCfg : NatPoolConfig :=
  { testNatCfg with external_ip_high_end := "200.0.0.1",
                    external_port_high_end := 49152 }

/-- State after two no-suggestion adds on the single-endpoint pool: the
second allocation walks past the high-end address. -/
def c2R2 : NatState :=
  (add_entry c2RangeCfg
    (add_entry c2RangeCfg (initNatTable c2RangeCfg) "172.16.1.1" 2000 3600 none none
      PROTO_TCP AF_IPV4).2
    "172.16.1.2" 2000 3600 none none PROTO_TCP AF_IPV4).2

/-- The out-of-range entry of the single-endpoint scenario. -/
def c2RE2 : NatTableEntry :=
  { address_family := AF_IPV4, protocol := PROTO_TCP,
    internal_ip := "172.16.1.2", internal_port := 2000,
    external_ip := "200.0.0.2", external_port := 49152, lifetime := 3600 }

/-- C2 is false as stated: after two add_entry calls with suggested
endpoints, the internal index holds two distinct live entries sharing
the external endpoint (200.0.0.3, 50000) while the external index has
lost the first entry entirely; and after two no-suggestion adds on a
one-endpoint pool, a live entry's external address exceeds
external_ip_high_end in the Python string order used by add_entry. -/
theorem C2_counterexample :
    (("172.16.1.12000" : String) ≠ "172.16.1.22000" ∧
      ("172.16.1.12000", c2E1) ∈ c2S2.table ∧
      ("172.16.1.22000", c2E2) ∈ c2S2.table ∧
      c2E1 ≠ c2E2 ∧
      c2E1.external_ip = c2E2.external_ip ∧
      c2E1.external_port = c2E2.external_port ∧
      (∀ p ∈ c2S2.table_external, p.2 ≠ c2E1)) ∧
    (("172.16.1.22000", c2RE2) ∈ c2R2.table ∧
      pyStrLt c2RangeCfg.external_ip_high_end c2RE2.external_ip = true) := by
  refine ⟨⟨?_, ?_, ?_, ?_, ?_, ?_, ?_⟩, ?_, ?_⟩ <;> decide

/-- The test pool with a single external port, under which the
concatenated external key is injective. -/
def c2WitCfg : NatPoolConfig := { testNatCfg with external_port_high_end := 49152 }

/-- A mixed operation sequence exercising all four operations. -/
def c2WitOps : List NatOp :=
  [NatOp.add "172.16.1.1" 2000 3600 PROTO_TCP AF_IPV4,
   NatOp.add "172.16.1.2" 2001 3600 PROTO_UDP AF_IPV4,
   NatOp.updateLifetime "172.16.1.1" 2000 7200,
   NatOp.removeExternal "200.0.0.1" 49152,
   NatOp.removeInternal "172.16.1.2" 2001]

/-- The amended invariant instantiated on a concrete pool and a mixed
concrete operation sequence. -/
theorem C2_witness :
    (∀ e, (∃ k, (k, e) ∈ (runNatOps c2WitCfg (initNatTable c2WitCfg) c2WitOps).table) ↔
      (∃ k, (k, e) ∈ (runNatOps c2WitCfg (initNatTable c2WitCfg) c2WitOps).table_external)) ∧
    (∀ p q, p ∈ (runNatOps c2WitCfg (initNatTable c2WitCfg) c2WitOps).table →
      q ∈ (runNatOps c2WitCfg (initNatTable c2WitCfg) c2WitOps).table →
      p.2.external_ip = q.2.external_ip → p.2.external_port = q.2.external_port →
      p = q) ∧
    (∀ p ∈ (runNatOps c2WitCfg (initNatTable c2WitCfg) c2WitOps).table,
      c2WitCfg.external_port_low_end ≤ p.2.external_port ∧
      p.2.external_port ≤ c2WitCfg.external_port_high_end) ∧
    (∀ p ∈ (runNatOps c2WitCfg (initNatTable c2WitCfg) c2WitOps).table,
      ∃ v, parseIpv4 p.2.external_ip = some v ∧ 3355443201 ≤ v) := by
  refine C2_index_consistency c2WitCfg c2WitOps 3355443201 (by decide) (by decide) ?_
  intro ip1 p1 ip2 p2 h1 h2 hl1 hh1 hl2 hh2 hk
  have hp1 : p1 = 49152 := by
    have ha : 49152 ≤ p1 := hl1
    have hb : p1 ≤ 49152 := hh1
    omega
  have hp2 : p2 = 49152 := by
    have ha : 49152 ≤ p2 := hl2
    have hb : p2 ≤ 49152 := hh2
    omega
  subst hp1
  subst hp2
  refine ⟨?_, rfl⟩
  have hdata : ip1.data ++ (Nat.repr 49152).data = ip2.data ++ (Nat.repr 49152).data :=
    congrArg String.data hk
  have hd2 : ip1.data = ip2.data := by
    have hlen : (Nat.repr 49152).data.length = (Nat.repr 49152).data.length := rfl
    exact List.append_inj_left hdata (by
      have := congrArg List.length hdata
      simpa using this)
  cases ip1 with
  | mk d1 =>
      cases ip2 with
      | mk d2 =>
          simp only [] at hd2
          rw [hd2]
